import Mathlib

/-
  Verification development for the SIC-lang runtime (compiler/runtime.go and
  the parser AST of the WORK declarations).  The interpreter over token
  bodies is embedded shallowly: Go maps become association lists, float64
  becomes an exact rational pair (exact at the magnitudes exercised here), goroutine
  fan-out becomes per-branch evaluation over isolated clones, and wall-clock
  effects (sleep, time.Now) become inert state.  All definitions follow the
  Go source; fuel makes the mutual recursion total, with exhaustion reported
  as a distinguished error.
-/

set_option maxHeartbeats 4000000

namespace SIC

/-- Token kinds, following the TokenType constants used by the runtime. -/
inductive TokType where
  | ILLEGAL | EOF | NEWLINE | DOT
  | IDENT | STRING | NUM
  | LANGUAGE | SCROLL | MODE | PROFILE | USING
  | WORK | SIGIL | TEXT | AS | UNUSED | THUS | WE | ANSWER | WITH | ENDWORK
  | SAY | LET | BE | FROM | WEAVE | ENDWEAVE | AT | LEVEL
  | ARCWORK
  | ALTAR | ENDALTAR | PORT | ROUTE | GET | POST | PUT | DELETE | HANDLER | SERVICE
  | SEND | BACK
  | CHAMBER | ENDCHAMBER
  | ENTANGLE | RELEASE | CORE
  | CHOIR | ENDCHOIR
  | IF | ELSE | END
  | WHILE | ENDWHILE
  | EPHEMERAL | RAISE | OMEN | ENDOMEN | SUMMON | YIELDS
  | COLON | COMMA | SLASH | LPAREN | RPAREN | LBRACE | RBRACE | EQUAL
  | PLUS | MINUS | STAR | PERCENT | BANG | LT | GT | LTE | GTE | EQ | NEQ
  | AND | OR | NOT
  | LOG | DOLLAR | TIME_NOW | SLEEP | FOR | SECONDS | SEAL | SEALED
deriving DecidableEq, Repr

/-- A lexical token; source positions are dropped (they only feed error text). -/
structure Token where
  type : TokType
  lexeme : String := ""
deriving DecidableEq, Repr

/-- The sigil environment: Go map[string]string as an association list. -/
abbrev Sig := List (String × String)

/-- Runtime errors: the omenError type, ordinary fmt.Errorf errors (without
the source-position suffix), and fuel exhaustion of the embedding. -/
inductive RErr where
  | omen (name : String)
  | fail (msg : String)
  | fuelOut
deriving DecidableEq, Repr

/-- Process-wide state threaded through execution: the CHAMBER entanglement
ledger (entangledCores), collected stdout lines, and a fixed clock value
standing in for time.Now().Unix(). -/
structure Glob where
  entangled : List String := []
  out : List String := []
  now : Int := 0
deriving DecidableEq, Repr

def pushOut (g : Glob) (line : String) : Glob :=
  { g with out := g.out ++ [line] }

/-- getSigil: first-match lookup. -/
def getSigil : Sig → String → Option String
  | [], _ => none
  | (k, v) :: rest, n => if k = n then some v else getSigil rest n

/-- setSigil: replace the binding if present, else append. -/
def setSigil : Sig → String → String → Sig
  | [], n, v => [(n, v)]
  | (k, w) :: rest, n, v =>
      if k = n then (n, v) :: rest else (k, w) :: setSigil rest n v

/-- delete: remove every binding of the name (Go maps hold at most one). -/
def delSigil : Sig → String → Sig
  | [], _ => []
  | (k, v) :: rest, n => if k = n then delSigil rest n else (k, v) :: delSigil rest n

/-- The meta-key marking a sigil invisible (sicInvisibleMetaPrefix). -/
def sicInvisibleMetaKey : String := "__SIC_META_INVISIBLE__"

-- Character-list implementations of the strings-package functions used by
-- the runtime (ASCII-faithful, and evaluable inside the proof kernel).

/-- strings.ToLower. -/
def sToLower (s : String) : String := String.mk (s.data.map Char.toLower)

/-- strings.ToUpper. -/
def sToUpper (s : String) : String := String.mk (s.data.map Char.toUpper)

/-- strings.TrimSpace. -/
def sTrim (s : String) : String :=
  String.mk (((s.data.dropWhile Char.isWhitespace).reverse.dropWhile Char.isWhitespace).reverse)

/-- strings.HasPrefix. -/
def sStartsWith (s p : String) : Bool := s.data.take p.data.length == p.data

/-- strings.HasSuffix. -/
def sEndsWith (s p : String) : Bool := s.data.reverse.take p.data.length == p.data.reverse

/-- Drop the first n characters. -/
def sDrop (s : String) (n : Nat) : String := String.mk (s.data.drop n)

/-- strings.ReplaceAll for the single-character pattern used by the runtime. -/
def sReplaceChar (s : String) (a b : Char) : String :=
  String.mk (s.data.map (fun c => if c = a then b else c))

/-- strings.EqualFold restricted to ASCII case folding. -/
def equalFold (a b : String) : Bool := sToLower a == sToLower b

/-- isInvisibleSigil from the source (the nil-table case cannot arise). -/
def isInvisibleSigil (s : Sig) (n : String) : Bool :=
  if n = "" then false else (getSigil s (sicInvisibleMetaKey ++ n)).isSome

def markInvisibleSigil (s : Sig) (n : String) : Sig :=
  if n = "" then s else setSigil s (sicInvisibleMetaKey ++ n) "1"

def unmarkInvisibleSigil (s : Sig) (n : String) : Sig :=
  if n = "" then s else delSigil s (sicInvisibleMetaKey ++ n)

def setSigilInvisible (s : Sig) (n v : String) : Sig :=
  markInvisibleSigil (setSigil s n v) n

/-- cloneVisibleSigils: copy only visible sigils, skipping all meta keys. -/
def cloneVisibleSigils (dst src : Sig) : Sig :=
  src.foldl
    (fun d kv =>
      if sStartsWith kv.1 sicInvisibleMetaKey then d
      else if isInvisibleSigil src kv.1 then d
      else setSigil d kv.1 kv.2)
    dst

/-- cloneSigils: a value copy of the table (identity on the list model). -/
def cloneSigils (s : Sig) : Sig := s

def sicRedacted : String := "[REDACTED]"

def redactIfTainted (val : String) (tainted : Bool) : String :=
  if tainted then sicRedacted else val

/-- The key layering OMEN presence on the sigil table (omenPrefix). -/
def omenKey : String := "__OMEN__:"

def raiseOmen (s : Sig) (n : String) : Sig := setSigil s (omenKey ++ n) "1"

def clearOmen (s : Sig) (n : String) : Sig := delSigil s (omenKey ++ n)

def omenPresent (s : Sig) (n : String) : Bool :=
  match getSigil s (omenKey ++ n) with
  | some v => v ≠ "" && v ≠ "0"
  | none => false

def clearAllOmens (s : Sig) : Sig :=
  s.filter (fun kv => ¬ sStartsWith kv.1 omenKey)


-- ---------------- number parsing and formatting ----------------

/-- The numeric domain standing in for float64: an exact rational with a
positive denominator, kept unnormalized (all operations are integer-only).
Exact at the magnitudes these programs compute, where float64 is exact too. -/
structure Qv where
  n : Int
  d : Int := 1
deriving DecidableEq, Repr

def Qv.ofInt (i : Int) : Qv := { n := i }

instance : OfNat Qv k := ⟨Qv.ofInt k⟩

def qAdd (a b : Qv) : Qv := { n := a.n * b.d + b.n * a.d, d := a.d * b.d }

def qSub (a b : Qv) : Qv := { n := a.n * b.d - b.n * a.d, d := a.d * b.d }

def qMul (a b : Qv) : Qv := { n := a.n * b.n, d := a.d * b.d }

def qNeg (a : Qv) : Qv := { n := -a.n, d := a.d }

/-- Division (callers guard the zero divisor); the sign is normalized back
into the numerator. -/
def qDiv (a b : Qv) : Qv :=
  let r : Qv := { n := a.n * b.d, d := a.d * b.n }
  if r.d < 0 then { n := -r.n, d := -r.d } else r

def qEq (a b : Qv) : Bool := a.n * b.d == b.n * a.d

def qLt (a b : Qv) : Bool := a.n * b.d < b.n * a.d

def qLe (a b : Qv) : Bool := !(qLt b a)

def qIsZero (a : Qv) : Bool := a.n == 0

/-- Truncation toward zero (the int64 float conversion). -/
def qTrunc (a : Qv) : Int := Int.tdiv a.n a.d

def pow10 : Nat → Int
  | 0 => 1
  | k + 1 => 10 * pow10 k

def digitsVal (cs : List Char) : Nat :=
  cs.foldl (fun a c => a * 10 + (c.toNat - 48)) 0

def allDigits (cs : List Char) : Bool := cs.all (·.isDigit)

/-- strconv.ParseInt base 10: optional sign, then at least one digit. -/
def parseIntD (s : String) : Option Int :=
  match s.data with
  | [] => none
  | '+' :: rest =>
      if rest ≠ [] && allDigits rest then some (Int.ofNat (digitsVal rest)) else none
  | '-' :: rest =>
      if rest ≠ [] && allDigits rest then some (-(Int.ofNat (digitsVal rest))) else none
  | cs =>
      if allDigits cs then some (Int.ofNat (digitsVal cs)) else none

/-- Decimal mantissa: digits with at most one dot, at least one digit. -/
def parseMantissa (cs : List Char) : Option Qv :=
  let intPart := cs.takeWhile (· ≠ '.')
  let rest := cs.dropWhile (· ≠ '.')
  match rest with
  | [] =>
      if intPart ≠ [] && allDigits intPart then some (Qv.ofInt (digitsVal intPart))
      else none
  | _ :: frac =>
      if frac.any (· = '.') then none
      else if (intPart ≠ [] || frac ≠ []) && allDigits intPart && allDigits frac then
        some { n := (digitsVal intPart * 10 ^ frac.length + digitsVal frac : Nat),
               d := pow10 frac.length }
      else none

/-- strconv.ParseFloat modelled exactly: sign, decimal mantissa, optional
decimal exponent (hex floats, Inf and NaN are outside the model). -/
def parseFloatQ (s : String) : Option Qv :=
  let withSign : List Char → Option Qv := fun cs =>
    let mant := cs.takeWhile (fun c => c ≠ 'e' && c ≠ 'E')
    let rest := cs.dropWhile (fun c => c ≠ 'e' && c ≠ 'E')
    match rest with
    | [] => parseMantissa mant
    | _ :: ex =>
        match parseMantissa mant, parseIntD (String.mk ex) with
        | some m, some e =>
            if e ≥ 0 then some (qMul m (Qv.ofInt (pow10 e.toNat)))
            else some { n := m.n, d := m.d * pow10 (-e).toNat }
        | _, _ => none
  match s.data with
  | '+' :: rest => withSign rest
  | '-' :: rest => (withSign rest).map qNeg
  | cs => withSign cs

/-- Least k ≤ bound making q * 10 ^ k integral (none if the search fails). -/
def decScale (q : Qv) : Nat → Option Nat
  | 0 => if Int.emod q.n q.d == 0 then some 0 else none
  | k + 1 =>
      match decScale q k with
      | some j => some j
      | none => if Int.emod (q.n * pow10 (k + 1)) q.d == 0 then some (k + 1) else none

/-- Insert a decimal point k digits from the right of the digit string of n. -/
def formatFixed (n : Nat) (k : Nat) : String :=
  let s := toString n
  if k = 0 then s
  else
    let s := if s.length < k + 1 then String.mk (List.replicate (k + 1 - s.length) '0') ++ s else s
    String.mk (s.data.take (s.length - k)) ++ "." ++ String.mk (s.data.drop (s.length - k))

/-- fmt.Sprintf %g on the exact model: shortest finite decimal rendering,
exact for the values these programs produce. -/
def formatG (q : Qv) : String :=
  match decScale q 64 with
  | some k =>
      let m := Int.tdiv (q.n * pow10 k) q.d
      if m < 0 then "-" ++ formatFixed m.natAbs k
      else formatFixed m.natAbs k
  | none => toString q.n ++ "/" ++ toString q.d

-- ---------------- expression values ----------------

inductive ExprKind where
  | exprText | exprInt | exprFloat | exprBool
deriving DecidableEq, Repr

/-- exprValue: tagged scalar with a taint bit. -/
structure ExprValue where
  kind : ExprKind := .exprText
  s : String := ""
  i : Int := 0
  f : Qv := Qv.ofInt 0
  b : Bool := false
  tainted : Bool := false
deriving DecidableEq, Repr

/-- exprValue.String(). -/
def ExprValue.toString (v : ExprValue) : String :=
  match v.kind with
  | .exprInt => ToString.toString v.i
  | .exprFloat => formatG v.f
  | .exprBool => if v.b then "true" else "false"
  | .exprText => v.s

def makeText (s : String) : ExprValue := { kind := .exprText, s := s }
def makeInt (i : Int) : ExprValue := { kind := .exprInt, i := i }
def makeFloat (f : Qv) : ExprValue := { kind := .exprFloat, f := f }
def makeBool (b : Bool) : ExprValue := { kind := .exprBool, b := b }

def withTaint (v : ExprValue) (t : Bool) : ExprValue := { v with tainted := t }

def combineTaint (out a b : ExprValue) : ExprValue :=
  { out with tainted := a.tainted || b.tainted }

/-- exprValue.asFloat: int promotes, text parses, bool maps to 0 or 1. -/
def ExprValue.asFloat (v : ExprValue) : Option Qv :=
  match v.kind with
  | .exprInt => some (Qv.ofInt v.i)
  | .exprFloat => some v.f
  | .exprText => parseFloatQ (sTrim v.s)
  | .exprBool => if v.b then some (Qv.ofInt 1) else some (Qv.ofInt 0)

/-- exprValue.asBool: truthiness for boolean operators. -/
def ExprValue.asBool (v : ExprValue) : Bool :=
  match v.kind with
  | .exprBool => v.b
  | .exprInt => v.i ≠ 0
  | .exprFloat => v.f ≠ 0
  | .exprText =>
      let s := sToLower (sTrim v.s)
      if s = "true" then true
      else if s = "false" then false
      else s ≠ ""

/-- The coerce closure inside parsePrimary: trim, try true and false, then
ParseFloat, then ParseInt, else keep the raw text. -/
def coerce (val : String) : ExprValue :=
  let s := sTrim val
  if equalFold s "true" then makeBool true
  else if equalFold s "false" then makeBool false
  else
    match parseFloatQ s with
    | some f => makeFloat f
    | none =>
        match parseIntD s with
        | some n => makeInt n
        | none => makeText val

/-- Go string comparison (bytewise; agrees with Char order on ASCII). -/
def strLt (a b : String) : Bool := compare a b == Ordering.lt
def strLe (a b : String) : Bool := compare a b != Ordering.gt

-- ---------------- program structure (parser AST) ----------------

/-- WorkDecl from the parser: name, raw token body, sigil parameter names,
and the EPHEMERAL and SEALED flags with the header SEAL token. -/
structure WorkDecl where
  name : String
  body : List Token := []
  sigilParams : List String := []
  ephemeral : Bool := false
  sealed : Bool := false
  sealToken : String := ""
deriving DecidableEq, Repr

/-- Program: the list of WORK declarations (header fields are irrelevant to
execution and dropped). -/
structure Program where
  works : List WorkDecl := []
deriving DecidableEq, Repr

/-- findWork: first declaration with the given name. -/
def findWork (p : Program) (n : String) : Option WorkDecl :=
  p.works.find? (fun w => w.name = n)

/-- cleanWorkBody: strip a single leading NEWLINE. -/
def cleanWorkBody (raw : List Token) : List Token :=
  match raw with
  | t :: rest => if t.type == .NEWLINE then rest else raw
  | [] => raw

-- ---------------- token-walking helpers ----------------

/-- tokens[a:b] as a list slice. -/
def slice (toks : List Token) (a b : Nat) : List Token :=
  (toks.drop a).take (b - a)

/-- Consume an optional trailing DOT at position i. -/
def skipDot (toks : List Token) (i : Nat) : Nat :=
  match toks[i]? with
  | some t => if t.type == .DOT then i + 1 else i
  | none => i

/-- Advance i to the first token whose type is in stops (or the end). -/
def advanceUntil (stops : List TokType) (toks : List Token) : Nat → Nat → Nat
  | 0, i => i
  | n + 1, i =>
      match toks[i]? with
      | none => i
      | some t =>
          if stops.contains t.type then i
          else advanceUntil stops toks n (i + 1)

/-- Skip NEWLINE tokens from i onward. -/
def skipNewlinesAll (toks : List Token) : Nat → Nat → Nat
  | 0, i => i
  | n + 1, i =>
      match toks[i]? with
      | some t => if t.type == .NEWLINE then skipNewlinesAll toks n (i + 1) else i
      | none => i

/-- Skip NEWLINE tokens from i while staying below the bound. -/
def skipNewlinesBefore (toks : List Token) (bound : Nat) : Nat → Nat → Nat
  | 0, i => i
  | n + 1, i =>
      if i < bound then
        match toks[i]? with
        | some t => if t.type == .NEWLINE then skipNewlinesBefore toks bound n (i + 1) else i
        | none => i
      else i

/-- Statement expression terminators: DOT, NEWLINE, ENDWORK. -/
def stmtStops : List TokType := [.DOT, .NEWLINE, .ENDWORK]

/-- Stops trimmed off by evalStringExpr before parsing. -/
def exprTrimStops : List TokType := [.DOT, .COLON, .NEWLINE, .ENDWEAVE, .ENDWORK, .FROM]

/-- Keep tokens up to the first stop token (the trim loop of evalStringExpr). -/
def takeUntilStops (stops : List TokType) (toks : List Token) : List Token :=
  toks.takeWhile (fun t => ¬ stops.contains t.type)

/-- normalizeExprTokens: rewrite SIGIL name pairs to the bare name, EQUALS to
the == operator, and drop stray FOR and SECONDS tokens. -/
def normalizeExprTokens : List Token → List Token
  | [] => []
  | [t] =>
      if t.type == .SIGIL && equalFold t.lexeme "SIGIL" then [t]
      else if t.type == .IDENT && equalFold t.lexeme "EQUALS" then
        [{ t with type := .EQ, lexeme := "==" }]
      else if t.type == .FOR || t.type == .SECONDS then []
      else [t]
  | t :: t2 :: rest2 =>
      if t.type == .SIGIL && equalFold t.lexeme "SIGIL" then
        if t2.type == .IDENT then t2 :: normalizeExprTokens rest2
        else t :: normalizeExprTokens (t2 :: rest2)
      else if t.type == .IDENT && equalFold t.lexeme "EQUALS" then
        { t with type := .EQ, lexeme := "==" } :: normalizeExprTokens (t2 :: rest2)
      else if t.type == .FOR || t.type == .SECONDS then
        normalizeExprTokens (t2 :: rest2)
      else t :: normalizeExprTokens (t2 :: rest2)

/-- IF condition ends at COLON or the word THEN. -/
def scanIfCondEnd (toks : List Token) : Nat → Nat → Nat
  | 0, i => i
  | n + 1, i =>
      match toks[i]? with
      | none => i
      | some t =>
          if t.type == .COLON || (t.type == .IDENT && equalFold t.lexeme "THEN") then i
          else scanIfCondEnd toks n (i + 1)

/-- The ELSE and END scan of execIf (END or the ident ENDIF close a level). -/
def scanIfEnd (toks : List Token) : Nat → Nat → Nat → Option Nat → Option Nat × Option Nat
  | 0, _, _, elseS => (elseS, none)
  | n + 1, j, depth, elseS =>
      match toks[j]? with
      | none => (elseS, none)
      | some t =>
          if t.type == .IF then scanIfEnd toks n (j + 1) (depth + 1) elseS
          else if t.type == .ELSE && depth == 1 then scanIfEnd toks n (j + 1) depth (some j)
          else if t.type == .END || (t.type == .IDENT && equalFold t.lexeme "ENDIF") then
            if depth == 1 then (elseS, some j)
            else scanIfEnd toks n (j + 1) (depth - 1) elseS
          else scanIfEnd toks n (j + 1) depth elseS

/-- The ELSE and END scan of execIfOmen (only the END token closes). -/
def scanIfOmenEnd (toks : List Token) : Nat → Nat → Nat → Option Nat → Option Nat × Option Nat
  | 0, _, _, elseS => (elseS, none)
  | n + 1, j, depth, elseS =>
      match toks[j]? with
      | none => (elseS, none)
      | some t =>
          if t.type == .IF then scanIfOmenEnd toks n (j + 1) (depth + 1) elseS
          else if t.type == .ELSE && depth == 1 then scanIfOmenEnd toks n (j + 1) depth (some j)
          else if t.type == .END && depth == 1 then (elseS, some j)
          else if t.type == .END then scanIfOmenEnd toks n (j + 1) (depth - 1) elseS
          else scanIfOmenEnd toks n (j + 1) depth elseS

/-- Matching ENDWHILE scan. -/
def scanWhileEnd (toks : List Token) : Nat → Nat → Nat → Option Nat
  | 0, _, _ => none
  | n + 1, j, depth =>
      match toks[j]? with
      | none => none
      | some t =>
          if t.type == .WHILE then scanWhileEnd toks n (j + 1) (depth + 1)
          else if t.type == .ENDWHILE || (t.type == .IDENT && equalFold t.lexeme "ENDWHILE") then
            if depth == 1 then some j else scanWhileEnd toks n (j + 1) (depth - 1)
          else scanWhileEnd toks n (j + 1) depth

/-- Matching ENDCHAMBER scan. -/
def scanChamberEnd (toks : List Token) : Nat → Nat → Nat → Option Nat
  | 0, _, _ => none
  | n + 1, j, depth =>
      match toks[j]? with
      | none => none
      | some t =>
          if t.type == .CHAMBER then scanChamberEnd toks n (j + 1) (depth + 1)
          else if t.type == .ENDCHAMBER then
            if depth == 1 then some j else scanChamberEnd toks n (j + 1) (depth - 1)
          else scanChamberEnd toks n (j + 1) depth

/-- First ENDCHOIR (token or exact ident) at or after j. -/
def scanChoirEnd (toks : List Token) : Nat → Nat → Option Nat
  | 0, _ => none
  | n + 1, j =>
      match toks[j]? with
      | none => none
      | some t =>
          if t.type == .ENDCHOIR || (t.type == .IDENT && t.lexeme == "ENDCHOIR") then some j
          else scanChoirEnd toks n (j + 1)

/-- END EPHEMERAL scan of execEphemeralBlock (transcribed with its quirk: a
continue after a non-final END EPHEMERAL still counts the EPHEMERAL token). -/
def scanEphemeralEnd (toks : List Token) : Nat → Nat → Nat → Option Nat
  | 0, _, _ => none
  | n + 1, j, depth =>
      match toks[j]? with
      | none => none
      | some t =>
          if t.type == .EPHEMERAL then scanEphemeralEnd toks n (j + 1) (depth + 1)
          else if t.type == .END then
            match toks[j + 1]? with
            | some t2 =>
                if t2.type == .EPHEMERAL then
                  if depth == 1 then some j else scanEphemeralEnd toks n (j + 1) (depth - 1)
                else scanEphemeralEnd toks n (j + 1) depth
            | none => scanEphemeralEnd toks n (j + 1) depth
          else scanEphemeralEnd toks n (j + 1) depth

/-- Statement-boundary token kinds before which a nested OMEN opens a block. -/
def omenBoundary : List TokType :=
  [.NEWLINE, .COLON, .END, .ENDWEAVE, .ENDWORK, .ENDOMEN, .ENDCHAMBER, .ENDALTAR]

/-- The FALLS_TO_RUIN and ENDOMEN scan of execOmenBlock, with the previous
token type deciding whether an OMEN token opens a nested block. -/
def scanOmenEnd (toks : List Token) :
    Nat → Nat → Nat → TokType → Option Nat → Option Nat × Option Nat
  | 0, _, _, _, ruin => (ruin, none)
  | n + 1, j, depth, prev, ruin =>
      match toks[j]? with
      | none => (ruin, none)
      | some t =>
          if t.type == .OMEN && omenBoundary.contains prev then
            scanOmenEnd toks n (j + 1) (depth + 1) .OMEN ruin
          else if t.type == .ENDOMEN then
            if depth == 1 then (ruin, some j)
            else scanOmenEnd toks n (j + 1) (depth - 1) .ENDOMEN ruin
          else if depth == 1 && t.type == .IDENT && t.lexeme == "FALLS_TO_RUIN" then
            scanOmenEnd toks n (j + 1) depth t.type (some j)
          else scanOmenEnd toks n (j + 1) depth t.type ruin

/-- ARCWORK RAISE amount ends at DOT, NEWLINE or the ident ENDARCWORK. -/
def scanArcAmountEnd (toks : List Token) : Nat → Nat → Nat
  | 0, i => i
  | n + 1, i =>
      match toks[i]? with
      | none => i
      | some t =>
          if t.type == .DOT || t.type == .NEWLINE ||
             (t.type == .IDENT && equalFold t.lexeme "ENDARCWORK") then i
          else scanArcAmountEnd toks n (i + 1)

/-- SLEEP duration ends at DOT, NEWLINE, ENDWORK or the word SECONDS. -/
def scanSleepEnd (toks : List Token) : Nat → Nat → Nat
  | 0, i => i
  | n + 1, i =>
      match toks[i]? with
      | none => i
      | some t =>
          if t.type == .DOT || t.type == .NEWLINE || t.type == .ENDWORK ||
             t.type == .SECONDS || (t.type == .IDENT && equalFold t.lexeme "SECONDS") then i
          else scanSleepEnd toks n (i + 1)

/-- One CHOIR statement walk: to DOT, NEWLINE, ENDWORK or ENDCHOIR below the bound. -/
def choirSkipStmt (toks : List Token) (bound : Nat) : Nat → Nat → Nat
  | 0, j => j
  | n + 1, j =>
      if j < bound then
        match toks[j]? with
        | none => j
        | some t =>
            if t.type == .DOT || t.type == .NEWLINE || t.type == .ENDWORK ||
               t.type == .ENDCHOIR then j
            else choirSkipStmt toks bound n (j + 1)
      else j

/-- Consume an optional DOT below the bound, then NEWLINEs below the bound. -/
def choirSkipTrail (toks : List Token) (bound : Nat) (n : Nat) (j : Nat) : Nat :=
  let j1 :=
    if j < bound then
      match toks[j]? with
      | some t => if t.type == .DOT then j + 1 else j
      | none => j
    else j
  skipNewlinesBefore toks bound n j1

/-- Starting indices of the SUMMON statements inside a CHOIR body; any other
statement-starting token is rejected. -/
def collectChoirStarts (toks : List Token) (bound : Nat) : Nat → Nat → Except RErr (List Nat)
  | 0, _ => .ok []
  | n + 1, j =>
      if j < bound then
        match toks[j]? with
        | none => .ok []
        | some tok =>
            if tok.type == .NEWLINE then collectChoirStarts toks bound n (j + 1)
            else if tok.type != .SUMMON then
              .error (.fail "CHOIR: only SUMMON statements are allowed inside CHOIR")
            else
              let j1 := choirSkipStmt toks bound (n + 1) j
              let j2 := choirSkipTrail toks bound (n + 1) j1
              match collectChoirStarts toks bound n j2 with
              | .error e => .error e
              | .ok rest => .ok (j :: rest)
      else .ok []

/-- First error in declaration order among the branch results. -/
def firstErr (l : List (Option RErr)) : Option RErr :=
  (l.filterMap id).head?

-- ---------------- pure statement helpers ----------------

/-- parseSigilTarget: optional SIGIL keyword, optional dollar, IDENT name
with a dollar prefix stripped. -/
def parseSigilTarget (toks : List Token) (i : Nat) : Except RErr (String × Nat) :=
  match toks[i]? with
  | none => .error (.fail "expected SIGIL name")
  | some t0 =>
      let i1 := if t0.type == .SIGIL || (t0.type == .IDENT && equalFold t0.lexeme "SIGIL")
                then i + 1 else i
      match toks[i1]? with
      | none => .error (.fail "expected SIGIL name")
      | some t1 =>
          let i2 := if t1.type == .DOLLAR then i1 + 1 else i1
          match toks[i2]? with
          | none => .error (.fail "expected SIGIL name")
          | some t2 =>
              if t2.type == .IDENT then
                let name := if sStartsWith t2.lexeme "$" then sDrop t2.lexeme 1 else t2.lexeme
                if name = "" then .error (.fail "empty SIGIL name")
                else .ok (name, i2 + 1)
              else .error (.fail "expected SIGIL name")

/-- execRaiseOmen: record the OMEN as present on the sigil table (this is not
a fatal error in the current runtime: it returns nil). -/
def execRaiseOmen (toks : List Token) (i : Nat) (sig : Sig) : Except RErr Nat × Sig :=
  match toks[i + 1]? with
  | some t =>
      if t.type == .OMEN then
        match toks[i + 2]? with
        | some ts =>
            if ts.type == .STRING then
              let iEnd := advanceUntil stmtStops toks (toks.length + 1) (i + 3)
              (.ok (skipDot toks iEnd), raiseOmen sig ts.lexeme)
            else (.error (.fail "RAISE: expected OMEN name string after OMEN"), sig)
        | none => (.error (.fail "RAISE: expected OMEN name string after OMEN"), sig)
      else (.error (.fail "RAISE: expected OMEN after RAISE"), sig)
  | none => (.error (.fail "RAISE: expected OMEN after RAISE"), sig)

/-- execEntangle: record the core in the current CHAMBER ledger; a second
entangle of the same name is an error. -/
def execEntangle (toks : List Token) (i : Nat) (g : Glob) : Except RErr Nat × Glob :=
  let i1 := i + 1
  let i2 := match toks[i1]? with
            | some t => if t.type == .CORE then i1 + 1 else i1
            | none => i1
  match toks[i2]? with
  | some t =>
      if t.type == .IDENT then
        let name := t.lexeme
        let i3 := i2 + 1
        let i4 := match toks[i3]? with
                  | some tw =>
                      if tw.type == .WITH then
                        match toks[i3 + 1]? with
                        | some tm =>
                            if tm.type == .STRING || tm.type == .IDENT then i3 + 2 else i3 + 1
                        | none => i3 + 1
                      else i3
                  | none => i3
        let i5 := skipDot toks i4
        if g.entangled.contains name then
          (.error (.fail ("ENTANGLE: core " ++ name ++ " entangled twice in same CHAMBER")), g)
        else (.ok i5, { g with entangled := name :: g.entangled })
      else (.error (.fail "ENTANGLE: expected core name"), g)
  | none => (.error (.fail "ENTANGLE: expected core name"), g)

/-- execRelease: remove the core from the ledger; releasing a name that is
not entangled is an error. -/
def execRelease (toks : List Token) (i : Nat) (g : Glob) : Except RErr Nat × Glob :=
  match toks[i + 1]? with
  | some t =>
      if t.type == .IDENT then
        let name := t.lexeme
        let i2 := skipDot toks (i + 2)
        if ¬ g.entangled.contains name then
          (.error (.fail ("RELEASE: core " ++ name ++ " not entangled in this CHAMBER")), g)
        else (.ok i2, { g with entangled := g.entangled.erase name })
      else (.error (.fail "RELEASE: expected core name"), g)
  | none => (.error (.fail "RELEASE: expected core name"), g)

/-- getSigilInt: unset or empty is 0; non-integer text is an error. -/
def getSigilInt (s : Sig) (n : String) : Except RErr Int :=
  match getSigil s n with
  | none => .ok 0
  | some raw =>
      if raw = "" then .ok 0
      else
        match parseIntD raw with
        | some v => .ok v
        | none => .error (.fail ("SIGIL " ++ n ++ " does not hold integer"))

def setSigilInt (s : Sig) (n : String) (v : Int) : Sig :=
  setSigil s n (ToString.toString v)

/-- readArcOperand: number literal, SIGIL name pair, or bare name. -/
def readArcOperand (toks : List Token) (i : Nat) (sig : Sig) : Except RErr (Int × Nat) :=
  match toks[i]? with
  | none => .error (.fail "ARCWORK: missing operand")
  | some tok =>
      if tok.type == .NUM then
        match parseIntD tok.lexeme with
        | some v => .ok (v, i + 1)
        | none => .error (.fail "ARCWORK: invalid number")
      else if tok.type == .SIGIL then
        match toks[i + 1]? with
        | some tn =>
            if tn.type == .IDENT then
              match getSigilInt sig tn.lexeme with
              | .ok v => .ok (v, i + 2)
              | .error e => .error e
            else .error (.fail "ARCWORK: expected SIGIL name after SIGIL")
        | none => .error (.fail "ARCWORK: expected SIGIL name after SIGIL")
      else if tok.type == .IDENT then
        match getSigilInt sig tok.lexeme with
        | .ok v => .ok (v, i + 1)
        | .error e => .error e
      else .error (.fail "ARCWORK: unexpected operand token")

/-- execArcLower: LOWER SIGIL name BY operand. -/
def execArcLower (toks : List Token) (i : Nat) (sig : Sig) : Except RErr Nat × Sig :=
  match toks[i + 1]? with
  | some ts =>
      if ts.type == .SIGIL then
        match toks[i + 2]? with
        | some tn =>
            if tn.type == .IDENT then
              let name := tn.lexeme
              match toks[i + 3]? with
              | some tb =>
                  if tb.type == .IDENT && tb.lexeme == "BY" then
                    match readArcOperand toks (i + 4) sig with
                    | .error e => (.error e, sig)
                    | .ok (delta, next) =>
                        match getSigilInt sig name with
                        | .error e => (.error e, sig)
                        | .ok cur =>
                            let sig1 := setSigilInt sig name (cur - delta)
                            let iEnd := advanceUntil stmtStops toks (toks.length + 1) next
                            (.ok (skipDot toks iEnd), sig1)
                  else (.error (.fail ("ARCWORK LOWER: expected BY after SIGIL " ++ name)), sig)
              | none => (.error (.fail ("ARCWORK LOWER: expected BY after SIGIL " ++ name)), sig)
            else (.error (.fail "ARCWORK LOWER: expected SIGIL name after SIGIL"), sig)
        | none => (.error (.fail "ARCWORK LOWER: expected SIGIL name after SIGIL"), sig)
      else (.error (.fail "ARCWORK LOWER: expected SIGIL after LOWER"), sig)
  | none => (.error (.fail "ARCWORK LOWER: expected SIGIL after LOWER"), sig)

/-- The addition and subtraction step of parseTerm: numeric when both
operands read as floats, text concatenation as the fallback for plus. -/
def termCombine (op : TokType) (l r : ExprValue) : Except RErr ExprValue :=
  match l.asFloat, r.asFloat with
  | some lf, some rf =>
      match op with
      | .PLUS => .ok (combineTaint (makeFloat (qAdd lf rf)) l r)
      | _ => .ok (combineTaint (makeFloat (qSub lf rf)) l r)
  | _, _ =>
      if op == .PLUS then
        .ok (combineTaint (makeText (l.toString ++ r.toString)) l r)
      else .error (.fail "cannot apply minus to non-numeric values")

/-- Decidable equality for Except values (needed to evaluate closed runs). -/
instance {e a : Type} [DecidableEq e] [DecidableEq a] : DecidableEq (Except e a) :=
  fun x y =>
    match x, y with
    | .ok u, .ok v =>
        if h : u = v then .isTrue (by rw [h]) else .isFalse (by intro hh; cases hh; exact h rfl)
    | .error u, .error v =>
        if h : u = v then .isTrue (by rw [h]) else .isFalse (by intro hh; cases hh; exact h rfl)
    | .ok _, .error _ => .isFalse (by intro hh; cases hh)
    | .error _, .ok _ => .isFalse (by intro hh; cases hh)

/-- The deferred ephemeral scrub of execWork: delete every tracked name and
its invisibility meta key from the sigil table. -/
def scrubEph : List String → Sig → Sig
  | [], s => s
  | n :: rest, s => scrubEph rest (delSigil (delSigil s n) (sicInvisibleMetaKey ++ n))

-- ---------------- the interpreter ----------------
--
-- The mutually recursive core of runtime.go.  Every function consumes one
-- unit of fuel on entry; exhaustion yields RErr.fuelOut.  Expression
-- evaluation reads the sigil table and threads the global state (output,
-- ledger, clock); statement execution additionally threads the sigil table
-- and the per-frame ephemeral name set.

mutual

/-- parseOr: logical-or level of the precedence climber. -/
def parseOr : Nat → Program → List Token → Nat → Sig → Glob →
    Except RErr (ExprValue × Nat) × Glob
  | 0, _, _, _, _, g => (.error .fuelOut, g)
  | f + 1, prog, toks, i, sig, g =>
      match parseAnd f prog toks i sig g with
      | (.error e, g1) => (.error e, g1)
      | (.ok (left, i1), g1) => parseOrLoop f prog toks left i1 sig g1
termination_by structural f => f

def parseOrLoop : Nat → Program → List Token → ExprValue → Nat → Sig → Glob →
    Except RErr (ExprValue × Nat) × Glob
  | 0, _, _, _, _, _, g => (.error .fuelOut, g)
  | f + 1, prog, toks, left, i, sig, g =>
      match toks[i]? with
      | some t =>
          if t.type == .OR then
            match parseAnd f prog toks (i + 1) sig g with
            | (.error e, g1) => (.error e, g1)
            | (.ok (right, i2), g1) =>
                parseOrLoop f prog toks
                  (combineTaint (makeBool (left.asBool || right.asBool)) left right) i2 sig g1
          else (.ok (left, i), g)
      | none => (.ok (left, i), g)
termination_by structural f => f

/-- parseAnd: logical-and level. -/

def parseAnd : Nat → Program → List Token → Nat → Sig → Glob →
    Except RErr (ExprValue × Nat) × Glob
  | 0, _, _, _, _, g => (.error .fuelOut, g)
  | f + 1, prog, toks, i, sig, g =>
      match parseEquality f prog toks i sig g with
      | (.error e, g1) => (.error e, g1)
      | (.ok (left, i1), g1) => parseAndLoop f prog toks left i1 sig g1
termination_by structural f => f

def parseAndLoop : Nat → Program → List Token → ExprValue → Nat → Sig → Glob →
    Except RErr (ExprValue × Nat) × Glob
  | 0, _, _, _, _, _, g => (.error .fuelOut, g)
  | f + 1, prog, toks, left, i, sig, g =>
      match toks[i]? with
      | some t =>
          if t.type == .AND then
            match parseEquality f prog toks (i + 1) sig g with
            | (.error e, g1) => (.error e, g1)
            | (.ok (right, i2), g1) =>
                parseAndLoop f prog toks
                  (combineTaint (makeBool (left.asBool && right.asBool)) left right) i2 sig g1
          else (.ok (left, i), g)
      | none => (.ok (left, i), g)
termination_by structural f => f

/-- parseEquality: == and != with numeric comparison first, text fallback. -/

def parseEquality : Nat → Program → List Token → Nat → Sig → Glob →
    Except RErr (ExprValue × Nat) × Glob
  | 0, _, _, _, _, g => (.error .fuelOut, g)
  | f + 1, prog, toks, i, sig, g =>
      match parseComparison f prog toks i sig g with
      | (.error e, g1) => (.error e, g1)
      | (.ok (left, i1), g1) => parseEqualityLoop f prog toks left i1 sig g1
termination_by structural f => f

def parseEqualityLoop : Nat → Program → List Token → ExprValue → Nat → Sig → Glob →
    Except RErr (ExprValue × Nat) × Glob
  | 0, _, _, _, _, _, g => (.error .fuelOut, g)
  | f + 1, prog, toks, left, i, sig, g =>
      match toks[i]? with
      | some t =>
          if t.type == .EQ || t.type == .NEQ then
            match parseComparison f prog toks (i + 1) sig g with
            | (.error e, g1) => (.error e, g1)
            | (.ok (right, i2), g1) =>
                let eq :=
                  match left.asFloat with
                  | some lf =>
                      match right.asFloat with
                      | some rf => qEq lf rf
                      | none => left.toString == right.toString
                  | none => left.toString == right.toString
                let out := if t.type == .EQ then makeBool eq else makeBool (!eq)
                parseEqualityLoop f prog toks (combineTaint out left right) i2 sig g1
          else (.ok (left, i), g)
      | none => (.ok (left, i), g)
termination_by structural f => f

/-- parseComparison: relational operators, numeric when both sides read as
floats, Go string order otherwise. -/

def parseComparison : Nat → Program → List Token → Nat → Sig → Glob →
    Except RErr (ExprValue × Nat) × Glob
  | 0, _, _, _, _, g => (.error .fuelOut, g)
  | f + 1, prog, toks, i, sig, g =>
      match parseTerm f prog toks i sig g with
      | (.error e, g1) => (.error e, g1)
      | (.ok (left, i1), g1) => parseComparisonLoop f prog toks left i1 sig g1
termination_by structural f => f

def parseComparisonLoop : Nat → Program → List Token → ExprValue → Nat → Sig → Glob →
    Except RErr (ExprValue × Nat) × Glob
  | 0, _, _, _, _, _, g => (.error .fuelOut, g)
  | f + 1, prog, toks, left, i, sig, g =>
      match toks[i]? with
      | some t =>
          if t.type == .LT || t.type == .LTE || t.type == .GT || t.type == .GTE then
            match parseTerm f prog toks (i + 1) sig g with
            | (.error e, g1) => (.error e, g1)
            | (.ok (right, i2), g1) =>
                let res :=
                  match left.asFloat, right.asFloat with
                  | some lf, some rf =>
                      if t.type == .LT then qLt lf rf
                      else if t.type == .LTE then qLe lf rf
                      else if t.type == .GT then qLt rf lf
                      else qLe rf lf
                  | _, _ =>
                      let ls := left.toString
                      let rs := right.toString
                      if t.type == .LT then strLt ls rs
                      else if t.type == .LTE then strLe ls rs
                      else if t.type == .GT then strLt rs ls
                      else strLe rs ls
                parseComparisonLoop f prog toks
                  (combineTaint (makeBool res) left right) i2 sig g1
          else (.ok (left, i), g)
      | none => (.ok (left, i), g)
termination_by structural f => f

/-- parseTerm: + and -, via the termCombine step. -/

def parseTerm : Nat → Program → List Token → Nat → Sig → Glob →
    Except RErr (ExprValue × Nat) × Glob
  | 0, _, _, _, _, g => (.error .fuelOut, g)
  | f + 1, prog, toks, i, sig, g =>
      match parseFactor f prog toks i sig g with
      | (.error e, g1) => (.error e, g1)
      | (.ok (left, i1), g1) => parseTermLoop f prog toks left i1 sig g1
termination_by structural f => f

def parseTermLoop : Nat → Program → List Token → ExprValue → Nat → Sig → Glob →
    Except RErr (ExprValue × Nat) × Glob
  | 0, _, _, _, _, _, g => (.error .fuelOut, g)
  | f + 1, prog, toks, left, i, sig, g =>
      match toks[i]? with
      | some t =>
          if t.type == .PLUS || t.type == .MINUS then
            match parseFactor f prog toks (i + 1) sig g with
            | (.error e, g1) => (.error e, g1)
            | (.ok (right, i2), g1) =>
                match termCombine t.type left right with
                | .error e => (.error e, g1)
                | .ok out => parseTermLoop f prog toks out i2 sig g1
          else (.ok (left, i), g)
      | none => (.ok (left, i), g)
termination_by structural f => f

/-- parseFactor: *, / and % over floats, with zero-divisor errors. -/

def parseFactor : Nat → Program → List Token → Nat → Sig → Glob →
    Except RErr (ExprValue × Nat) × Glob
  | 0, _, _, _, _, g => (.error .fuelOut, g)
  | f + 1, prog, toks, i, sig, g =>
      match parseUnary f prog toks i sig g with
      | (.error e, g1) => (.error e, g1)
      | (.ok (left, i1), g1) => parseFactorLoop f prog toks left i1 sig g1
termination_by structural f => f

def parseFactorLoop : Nat → Program → List Token → ExprValue → Nat → Sig → Glob →
    Except RErr (ExprValue × Nat) × Glob
  | 0, _, _, _, _, _, g => (.error .fuelOut, g)
  | f + 1, prog, toks, left, i, sig, g =>
      match toks[i]? with
      | some t =>
          if t.type == .STAR || t.type == .SLASH || t.type == .PERCENT then
            match parseUnary f prog toks (i + 1) sig g with
            | (.error e, g1) => (.error e, g1)
            | (.ok (right, i2), g1) =>
                match left.asFloat, right.asFloat with
                | some lf, some rf =>
                    if t.type == .STAR then
                      parseFactorLoop f prog toks
                        (combineTaint (makeFloat (qMul lf rf)) left right) i2 sig g1
                    else if t.type == .SLASH then
                      if qIsZero rf then (.error (.fail "division by zero"), g1)
                      else parseFactorLoop f prog toks
                        (combineTaint (makeFloat (qDiv lf rf)) left right) i2 sig g1
                    else
                      let li := qTrunc lf
                      let ri := qTrunc rf
                      if ri == 0 then (.error (.fail "modulo by zero"), g1)
                      else parseFactorLoop f prog toks
                        (combineTaint (makeInt (Int.tmod li ri)) left right) i2 sig g1
                | _, _ => (.error (.fail "non-numeric value in arithmetic expression"), g1)
          else (.ok (left, i), g)
      | none => (.ok (left, i), g)
termination_by structural f => f

/-- parseUnary: numeric negation and boolean NOT. -/

def parseUnary : Nat → Program → List Token → Nat → Sig → Glob →
    Except RErr (ExprValue × Nat) × Glob
  | 0, _, _, _, _, g => (.error .fuelOut, g)
  | f + 1, prog, toks, i, sig, g =>
      match toks[i]? with
      | none => (.error (.fail "unexpected end of expression"), g)
      | some tok =>
          if tok.type == .MINUS then
            match parseUnary f prog toks (i + 1) sig g with
            | (.error e, g1) => (.error e, g1)
            | (.ok (val, i1), g1) =>
                match val.asFloat with
                | some lf => (.ok (withTaint (makeFloat (qNeg lf)) val.tainted, i1), g1)
                | none => (.error (.fail "cannot negate non-numeric value"), g1)
          else if tok.type == .NOT then
            match parseUnary f prog toks (i + 1) sig g with
            | (.error e, g1) => (.error e, g1)
            | (.ok (val, i1), g1) =>
                (.ok (withTaint (makeBool (!val.asBool)) val.tainted, i1), g1)
          else parsePrimary f prog toks i sig g
termination_by structural f => f

/-- parsePrimary: literals, sigil reads (tainting invisible names), grouping
and embedded SUMMON calls. -/

def parsePrimary : Nat → Program → List Token → Nat → Sig → Glob →
    Except RErr (ExprValue × Nat) × Glob
  | 0, _, _, _, _, g => (.error .fuelOut, g)
  | f + 1, prog, toks, i, sig, g =>
      match toks[i]? with
      | none => (.error (.fail "unexpected end of expression"), g)
      | some tok =>
          if tok.type == .FOR || tok.type == .SECONDS ||
             (tok.type == .IDENT &&
               (equalFold tok.lexeme "BY" || equalFold tok.lexeme "FOR" ||
                equalFold tok.lexeme "SECONDS")) then
            parsePrimary f prog toks (i + 1) sig g
          else if tok.type == .STRING then (.ok (makeText tok.lexeme, i + 1), g)
          else if tok.type == .TIME_NOW then (.ok (makeInt g.now, i + 1), g)
          else if tok.type == .SIGIL then
            match toks[i + 1]? with
            | some nt =>
                if nt.type == .IDENT then
                  match getSigil sig nt.lexeme with
                  | none => (.error (.fail ("unknown SIGIL " ++ nt.lexeme)), g)
                  | some val =>
                      let v := coerce val
                      let v := if isInvisibleSigil sig nt.lexeme then withTaint v true else v
                      (.ok (v, i + 2), g)
                else (.error (.fail "expected SIGIL name after SIGIL"), g)
            | none => (.error (.fail "expected SIGIL name after SIGIL"), g)
          else if tok.type == .DOLLAR then
            match toks[i + 1]? with
            | some nt =>
                if nt.type == .IDENT then
                  if equalFold nt.lexeme "TIME_NOW" then (.ok (makeInt g.now, i + 2), g)
                  else
                    match getSigil sig nt.lexeme with
                    | none => (.error (.fail ("unknown SIGIL " ++ nt.lexeme)), g)
                    | some val =>
                        let v := coerce val
                        let v := if isInvisibleSigil sig nt.lexeme then withTaint v true else v
                        (.ok (v, i + 2), g)
                else (.error (.fail "expected SIGIL name after dollar"), g)
            | none => (.error (.fail "expected SIGIL name after dollar"), g)
          else if tok.type == .NUM then
            let lex := sTrim tok.lexeme
            if lex.data.any (fun c => c == '.' || c == 'e' || c == 'E') then
              match parseFloatQ lex with
              | some fv => (.ok (makeFloat fv, i + 1), g)
              | none => (.error (.fail "invalid float literal"), g)
            else
              match parseIntD lex with
              | some n => (.ok (makeInt n, i + 1), g)
              | none => (.error (.fail "invalid int literal"), g)
          else if tok.type == .IDENT then
            if equalFold tok.lexeme "TIME_NOW" then (.ok (makeInt g.now, i + 1), g)
            else
              match getSigil sig tok.lexeme with
              | none => (.error (.fail ("unknown SIGIL " ++ tok.lexeme)), g)
              | some val =>
                  let v := coerce val
                  let v := if isInvisibleSigil sig tok.lexeme then withTaint v true else v
                  (.ok (v, i + 1), g)
          else if tok.type == .LPAREN then
            match parseOr f prog toks (i + 1) sig g with
            | (.error e, g1) => (.error e, g1)
            | (.ok (inner, i1), g1) =>
                match toks[i1]? with
                | some rp =>
                    if rp.type == .RPAREN then (.ok (inner, i1 + 1), g1)
                    else (.error (.fail "expected closing paren in expression"), g1)
                | none => (.error (.fail "expected closing paren in expression"), g1)
          else if tok.type == .SUMMON then
            match evalSummonExpr f prog toks i sig g with
            | (.error e, g1) => (.error e, g1)
            | (.ok (val, consumed), g1) => (.ok (makeText val, i + consumed), g1)
          else (.error (.fail "unexpected token in expression"), g)
termination_by structural f => f

/-- evalSummonExpr: locate the WORK, build a child environment of visible
sigils, bind the first parameter, run the body capturing its answer.  The
Sealed flag and SealToken of the target are never consulted here, exactly as
in the source. -/

def evalSummonExpr : Nat → Program → List Token → Nat → Sig → Glob →
    Except RErr (String × Nat) × Glob
  | 0, _, _, _, _, g => (.error .fuelOut, g)
  | f + 1, prog, toks, start, sig, g =>
      match toks[start + 1]? with
      | none => (.error (.fail "SUMMON: expected WORK after SUMMON"), g)
      | some t1 =>
          if t1.type == .WORK then
            match toks[start + 2]? with
            | none => (.error (.fail "SUMMON: expected WORK name after WORK"), g)
            | some t2 =>
                if t2.type == .IDENT then
                  let targetName := t2.lexeme
                  let i := start + 3
                  let argRes : Except RErr (String × String × Bool × Nat) :=
                    match toks[i]? with
                    | some tw =>
                        if tw.type == .WITH then
                          let i1 :=
                            match toks[i + 1]? with
                            | some ts => if ts.type == .SIGIL then i + 2 else i + 1
                            | none => i + 1
                          match toks[i1]? with
                          | none => .error (.fail "SUMMON: missing argument after WITH")
                          | some ta =>
                              if ta.type == .STRING then .ok (ta.lexeme, "", false, i1 + 1)
                              else if ta.type == .IDENT then
                                .ok ((getSigil sig ta.lexeme).getD "", ta.lexeme,
                                     isInvisibleSigil sig ta.lexeme, i1 + 1)
                              else if ta.type == .UNUSED then .ok ("", "", false, i1 + 1)
                              else .error (.fail "SUMMON: unsupported argument token")
                        else .ok ("", "", false, i)
                    | none => .ok ("", "", false, i)
                  match argRes with
                  | .error e => (.error e, g)
                  | .ok (argVal, argFromSigil, argWasInvisible, iEnd) =>
                      match findWork prog targetName with
                      | none =>
                          (.error (.fail ("SUMMON: WORK " ++ targetName ++ " not found")), g)
                      | some target =>
                          let child := cloneVisibleSigils [] sig
                          let child :=
                            match target.sigilParams with
                            | [] => child
                            | param :: _ =>
                                let c := setSigil child param argVal
                                if argFromSigil ≠ "" && argWasInvisible then
                                  markInvisibleSigil c param
                                else c
                          match execWork f prog target child g true with
                          | (.error e, _, g2) => (.error e, g2)
                          | (.ok result, _, g2) => (.ok (result, iEnd - start), g2)
                else (.error (.fail "SUMMON: expected WORK name after WORK"), g)
          else (.error (.fail "SUMMON: expected WORK after SUMMON"), g)
termination_by structural f => f

/-- evalStringExpr: trim trailing control tokens, normalize, parse, render. -/

def evalStringExpr : Nat → Program → List Token → Sig → Glob →
    Except RErr String × Glob
  | 0, _, _, _, g => (.error .fuelOut, g)
  | f + 1, prog, toks, sig, g =>
      if toks.isEmpty then (.ok "", g)
      else
        let toks1 := takeUntilStops exprTrimStops toks
        if toks1.isEmpty then (.ok "", g)
        else
          let toks2 := normalizeExprTokens toks1
          match parseOr f prog toks2 0 sig g with
          | (.error e, g1) => (.error e, g1)
          | (.ok (v, _), g1) => (.ok v.toString, g1)
termination_by structural f => f

/-- evalStringExprTainted: as evalStringExpr but also reporting the taint. -/

def evalStringExprTainted : Nat → Program → List Token → Sig → Glob →
    Except RErr (String × Bool) × Glob
  | 0, _, _, _, g => (.error .fuelOut, g)
  | f + 1, prog, toks, sig, g =>
      if toks.isEmpty then (.ok ("", false), g)
      else
        let toks1 := takeUntilStops exprTrimStops toks
        if toks1.isEmpty then (.ok ("", false), g)
        else
          let toks2 := normalizeExprTokens toks1
          match parseOr f prog toks2 0 sig g with
          | (.error e, g1) => (.error e, g1)
          | (.ok (v, _), g1) => (.ok (v.toString, v.tainted), g1)
termination_by structural f => f

/-- evalBoolExpr: normalize and parse, then take truthiness. -/

def evalBoolExpr : Nat → Program → List Token → Sig → Glob →
    Except RErr Bool × Glob
  | 0, _, _, _, g => (.error .fuelOut, g)
  | f + 1, prog, toks, sig, g =>
      if toks.isEmpty then (.ok false, g)
      else
        let toks1 := normalizeExprTokens toks
        match parseOr f prog toks1 0 sig g with
        | (.error e, g1) => (.error e, g1)
        | (.ok (v, _), g1) => (.ok v.asBool, g1)
termination_by structural f => f

/-- execWork: run a WORK body; the deferred scrub removes every ephemeral
name (and its invisibility meta key) from the sigil table on every exit
path, error paths included. -/

def execWork : Nat → Program → WorkDecl → Sig → Glob → Bool →
    Except RErr String × Sig × Glob
  | 0, _, _, sig, g, _ => (.error .fuelOut, sig, g)
  | f + 1, prog, w, sig, g, capture =>
      let r := execWorkCore f prog w sig g capture
      (r.1, scrubEph r.2.2.2 r.2.1, r.2.2.1)
termination_by structural f => f

/-- execWorkCore: the statement loop together with the ephemeral set it
accumulated (before the deferred scrub is applied). -/

def execWorkCore : Nat → Program → WorkDecl → Sig → Glob → Bool →
    Except RErr String × Sig × Glob × List String
  | 0, _, _, sig, g, _ => (.error .fuelOut, sig, g, [])
  | f + 1, prog, w, sig, g, capture =>
      let toks := cleanWorkBody w.body
      let g1 := if w.ephemeral then
                  pushOut g ("[SIC] Entering EPHEMERAL WORK " ++ w.name ++ ".")
                else g
      execWorkLoop f prog toks 0 sig [] g1 capture
termination_by structural f => f

/-- The statement dispatch loop of execWork. -/

def execWorkLoop : Nat → Program → List Token → Nat → Sig → List String → Glob → Bool →
    Except RErr String × Sig × Glob × List String
  | 0, _, _, _, sig, eph, g, _ => (.error .fuelOut, sig, g, eph)
  | f + 1, prog, toks, i, sig, eph, g, capture =>
      match toks[i]? with
      | none => (.ok "", sig, g, eph)
      | some tok =>
          if tok.type == .NEWLINE then execWorkLoop f prog toks (i + 1) sig eph g capture
          else if tok.type == .THUS then
            match execThus f prog toks i sig g with
            | (.error e, g1) => (.error e, sig, g1, eph)
            | (.ok (msg, _), g1) =>
                if capture then (.ok msg, sig, g1, eph)
                else (.ok "", sig, pushOut g1 msg, eph)
          else if tok.type == .SAY then
            match execSay f prog toks i sig g with
            | (.error e, g1) => (.error e, sig, g1, eph)
            | (.ok i1, g1) => execWorkLoop f prog toks i1 sig eph g1 capture
          else if tok.type == .LET then
            match execLet f prog toks i sig g eph with
            | (.error e, sig1, g1, eph1) => (.error e, sig1, g1, eph1)
            | (.ok i1, sig1, g1, eph1) => execWorkLoop f prog toks i1 sig1 eph1 g1 capture
          else if tok.type == .EPHEMERAL then
            let sigilForm : Bool :=
              match toks[i + 1]? with
              | some t2 => t2.type == .SIGIL
              | none => false
            match sigilForm with
            | true =>
              match execEphemeralSigil f prog toks i sig g with
              | (.error e, sig1, g1) => (.error e, sig1, g1, eph)
              | (.ok (i1, name), sig1, g1) =>
                  execWorkLoop f prog toks i1 sig1 (name :: eph) g1 capture
            | false =>
              match execEphemeralBlock f prog toks i sig g with
              | (.error e, sig1, g1) => (.error e, sig1, g1, eph)
              | (.ok i1, sig1, g1) => execWorkLoop f prog toks i1 sig1 eph g1 capture
          else if tok.type == .RAISE then
            match execRaiseOmen toks i sig with
            | (.error e, sig1) => (.error e, sig1, g, eph)
            | (.ok i1, sig1) => execWorkLoop f prog toks i1 sig1 eph g capture
          else if tok.type == .OMEN then
            match execOmenBlock f prog toks i sig g with
            | (.error e, sig1, g1) => (.error e, sig1, g1, eph)
            | (.ok i1, sig1, g1) => execWorkLoop f prog toks i1 sig1 eph g1 capture
          else if tok.type == .WEAVE then
            match execWeaveBlock f prog toks i sig g with
            | (.error e, g1) => (.error e, sig, g1, eph)
            | (.ok i1, g1) => execWorkLoop f prog toks i1 sig eph g1 capture
          else if tok.type == .CHOIR then
            match execChoirBlock f prog toks i sig g with
            | (.error e, sig1, g1) => (.error e, sig1, g1, eph)
            | (.ok i1, sig1, g1) => execWorkLoop f prog toks i1 sig1 eph g1 capture
          else if tok.type == .WHILE then
            match execWhile f prog toks i sig g with
            | (.error e, sig1, g1) => (.error e, sig1, g1, eph)
            | (.ok i1, sig1, g1) => execWorkLoop f prog toks i1 sig1 eph g1 capture
          else if tok.type == .ALTAR then
            -- Service dispatch opens a network listener; the request handlers
            -- are embedded separately below, the statement itself is outside
            -- the executable model.
            (.error (.fail "ALTAR: service dispatch not modelled"), sig, g, eph)
          else if tok.type == .SUMMON then
            match execSummonStmt f prog toks i sig g with
            | (.error e, g1) => (.error e, sig, g1, eph)
            | (.ok i1, g1) => execWorkLoop f prog toks i1 sig eph g1 capture
          else if tok.type == .SLEEP then
            match execSleep f prog toks i sig g with
            | (.error e, g1) => (.error e, sig, g1, eph)
            | (.ok i1, g1) => execWorkLoop f prog toks i1 sig eph g1 capture
          else if tok.type == .IDENT && tok.lexeme == "SEND" then
            match execSendBack f prog toks i sig g with
            | (.error e, g1) => (.error e, sig, g1, eph)
            | (.ok (msg, _), g1) =>
                if capture then (.ok msg, sig, g1, eph)
                else (.ok "", sig, pushOut g1 msg, eph)
          else if tok.type == .IDENT && tok.lexeme == "FALLS_TO_RUIN" then
            match execFallsToRuin f prog toks i sig g with
            | (.error e, sig1, g1) => (.error e, sig1, g1, eph)
            | (.ok i1, sig1, g1) => execWorkLoop f prog toks i1 sig1 eph g1 capture
          else if tok.type == .IDENT && tok.lexeme == "SLEEP" then
            match execSleep f prog toks i sig g with
            | (.error e, g1) => (.error e, sig, g1, eph)
            | (.ok i1, g1) => execWorkLoop f prog toks i1 sig eph g1 capture
          else if tok.type == .IF then
            let omenForm : Bool :=
              match toks[i + 1]? with
              | some t2 => t2.type == .OMEN
              | none => false
            match omenForm with
            | true =>
              match execIfOmen f prog toks i sig g with
              | (.error e, sig1, g1) => (.error e, sig1, g1, eph)
              | (.ok i1, sig1, g1) => execWorkLoop f prog toks i1 sig1 eph g1 capture
            | false =>
              match execIf f prog toks i sig g with
              | (.error e, sig1, g1) => (.error e, sig1, g1, eph)
              | (.ok i1, sig1, g1) => execWorkLoop f prog toks i1 sig1 eph g1 capture
          else if tok.type == .CHAMBER then
            match execChamberBlock f prog toks i sig g with
            | (.error e, sig1, g1) => (.error e, sig1, g1, eph)
            | (.ok i1, sig1, g1) => execWorkLoop f prog toks i1 sig1 eph g1 capture
          else if tok.type == .ENTANGLE then
            match execEntangle toks i g with
            | (.error e, g1) => (.error e, sig, g1, eph)
            | (.ok i1, g1) => execWorkLoop f prog toks i1 sig eph g1 capture
          else if tok.type == .RELEASE then
            match execRelease toks i g with
            | (.error e, g1) => (.error e, sig, g1, eph)
            | (.ok i1, g1) => execWorkLoop f prog toks i1 sig eph g1 capture
          else if tok.type == .ARCWORK then
            match execArcworkBlock f prog toks i sig g with
            | (.error e, sig1, g1) => (.error e, sig1, g1, eph)
            | (.ok i1, sig1, g1) => execWorkLoop f prog toks i1 sig1 eph g1 capture
          else execWorkLoop f prog toks (i + 1) sig eph g capture
termination_by structural f => f

/-- execThus: THUS WE ANSWER [WITH] expr. — the value is rendered through
evalStringExpr, which drops the taint bit, so no redaction happens here. -/

def execThus : Nat → Program → List Token → Nat → Sig → Glob →
    Except RErr (String × Nat) × Glob
  | 0, _, _, _, _, g => (.error .fuelOut, g)
  | f + 1, prog, toks, i, sig, g =>
      match toks[i + 1]? with
      | some tw =>
          if tw.type == .WE then
            match toks[i + 2]? with
            | some ta =>
                if ta.type == .ANSWER then
                  let i1 := i + 3
                  let i2 :=
                    match toks[i1]? with
                    | some t =>
                        if (t.type == .IDENT && t.lexeme == "WITH") || t.type == .WITH then
                          i1 + 1
                        else i1
                    | none => i1
                  let iEnd := advanceUntil stmtStops toks (toks.length + 1) i2
                  match evalStringExpr f prog (slice toks i2 iEnd) sig g with
                  | (.error e, g1) => (.error e, g1)
                  | (.ok val, g1) => (.ok (val, skipDot toks iEnd), g1)
                else (.error (.fail "THUS: expected ANSWER after WE"), g)
            | none => (.error (.fail "THUS: expected ANSWER after WE"), g)
          else (.error (.fail "THUS: expected WE after THUS"), g)
      | none => (.error (.fail "THUS: expected WE after THUS"), g)
termination_by structural f => f

/-- execSay: SAY: expr. — renders with redaction of tainted values. -/

def execSay : Nat → Program → List Token → Nat → Sig → Glob →
    Except RErr Nat × Glob
  | 0, _, _, _, _, g => (.error .fuelOut, g)
  | f + 1, prog, toks, i, sig, g =>
      match toks[i + 1]? with
      | some tc =>
          if tc.type == .COLON then
            let i1 := i + 2
            let iEnd := advanceUntil stmtStops toks (toks.length + 1) i1
            match evalStringExprTainted f prog (slice toks i1 iEnd) sig g with
            | (.error e, g1) => (.error e, g1)
            | (.ok (msg, tainted), g1) =>
                (.ok (skipDot toks iEnd),
                 pushOut g1 ("[SIC SAY] " ++ redactIfTainted msg tainted))
          else (.error (.fail "SAY: expected COLON after SAY"), g)
      | none => (.error (.fail "SAY: expected COLON after SAY"), g)
termination_by structural f => f

/-- execSendBack: SEND BACK with the direct-SIGIL redaction special case and
the tainted-expression redaction for the general form. -/

def execSendBack : Nat → Program → List Token → Nat → Sig → Glob →
    Except RErr (String × Nat) × Glob
  | 0, _, _, _, _, g => (.error .fuelOut, g)
  | f + 1, prog, toks, i, sig, g =>
      let i1 := skipNewlinesAll toks (toks.length + 1) (i + 1)
      match toks[i1]? with
      | none => (.error (.fail "SEND BACK: expected BACK after SEND"), g)
      | some tb =>
          if ¬ equalFold tb.lexeme "BACK" then
            (.error (.fail "SEND BACK: expected BACK after SEND"), g)
          else
            let i2 := i1 + 1
            let i3 :=
              match toks[i2]? with
              | some t => if t.type == .COLON then i2 + 1 else i2
              | none => i2
            let sigilCase : Bool :=
              match toks[i3]? with
              | some t => t.type == .SIGIL
              | none => false
            if sigilCase = true then
              match toks[i3 + 1]? with
              | some tn =>
                  if tn.type == .IDENT then
                    let name := tn.lexeme
                    let val := (getSigil sig name).getD ""
                    let iEnd := advanceUntil stmtStops toks (toks.length + 1) (i3 + 2)
                    let iRes := skipDot toks iEnd
                    if isInvisibleSigil sig name then (.ok (sicRedacted, iRes), g)
                    else (.ok (val, iRes), g)
                  else (.error (.fail "SEND BACK: expected SIGIL name after SIGIL"), g)
              | none => (.error (.fail "SEND BACK: expected SIGIL name after SIGIL"), g)
            else
              let iEnd := advanceUntil stmtStops toks (toks.length + 1) i3
              match evalStringExprTainted f prog (slice toks i3 iEnd) sig g with
              | (.error e, g1) => (.error e, g1)
              | (.ok (val, tainted), g1) =>
                  (.ok (redactIfTainted val tainted, skipDot toks iEnd), g1)
termination_by structural f => f

/-- execLet: LET [EPHEMERAL] [INVISIBLE] target BE expr. — a plain bind of a
previously invisible name leaves the invisibility marking in place. -/

def execLet : Nat → Program → List Token → Nat → Sig → Glob → List String →
    Except RErr Nat × Sig × Glob × List String
  | 0, _, _, _, sig, g, eph => (.error .fuelOut, sig, g, eph)
  | f + 1, prog, toks, i, sig, g, eph =>
      let i1 := i + 1
      let (isEph, i2) : Bool × Nat :=
        match toks[i1]? with
        | some t => if t.type == .EPHEMERAL then (true, i1 + 1) else (false, i1)
        | none => (false, i1)
      let (isInv, i3) : Bool × Nat :=
        match toks[i2]? with
        | some t =>
            if t.type == .IDENT && equalFold t.lexeme "INVISIBLE" then (true, i2 + 1)
            else (false, i2)
        | none => (false, i2)
      match parseSigilTarget toks i3 with
      | .error (.fail m) => (.error (.fail ("LET: " ++ m)), sig, g, eph)
      | .error e => (.error e, sig, g, eph)
      | .ok (name, i4) =>
          let beOk : Bool :=
            match toks[i4]? with
            | some t => t.type == .BE || (t.type == .IDENT && equalFold t.lexeme "BE")
            | none => false
          if beOk = true then
            let i5 := i4 + 1
            let iEnd := advanceUntil stmtStops toks (toks.length + 1) i5
            match evalStringExpr f prog (slice toks i5 iEnd) sig g with
            | (.error e, g1) => (.error e, sig, g1, eph)
            | (.ok val, g1) =>
                let sig1 := if isInv then setSigilInvisible sig name val
                            else setSigil sig name val
                let eph1 := if isEph then name :: eph else eph
                (.ok (skipDot toks iEnd), sig1, g1, eph1)
          else (.error (.fail ("LET: expected BE after SIGIL " ++ name)), sig, g, eph)
termination_by structural f => f

/-- execEphemeralSigil: EPHEMERAL [LET] target BE expr. — binds like LET; the
caller records the name for scrubbing. -/

def execEphemeralSigil : Nat → Program → List Token → Nat → Sig → Glob →
    Except RErr (Nat × String) × Sig × Glob
  | 0, _, _, _, sig, g => (.error .fuelOut, sig, g)
  | f + 1, prog, toks, i, sig, g =>
      let i1 := i + 1
      let i2 :=
        match toks[i1]? with
        | some t => if t.type == .LET then i1 + 1 else i1
        | none => i1
      match parseSigilTarget toks i2 with
      | .error (.fail m) => (.error (.fail ("EPHEMERAL: " ++ m)), sig, g)
      | .error e => (.error e, sig, g)
      | .ok (name, i3) =>
          let beOk : Bool :=
            match toks[i3]? with
            | some t => t.type == .BE || (t.type == .IDENT && t.lexeme == "BE")
            | none => false
          if beOk = true then
            let i4 := i3 + 1
            let iEnd := advanceUntil stmtStops toks (toks.length + 1) i4
            match evalStringExpr f prog (slice toks i4 iEnd) sig g with
            | (.error e, g1) => (.error e, sig, g1)
            | (.ok val, g1) =>
                (.ok (skipDot toks iEnd, name), setSigil sig name val, g1)
          else (.error (.fail ("EPHEMERAL: expected BE after SIGIL " ++ name)), sig, g)
termination_by structural f => f

/-- execEphemeralBlock: EPHEMERAL: body END EPHEMERAL. -/

def execEphemeralBlock : Nat → Program → List Token → Nat → Sig → Glob →
    Except RErr Nat × Sig × Glob
  | 0, _, _, _, sig, g => (.error .fuelOut, sig, g)
  | f + 1, prog, toks, i, sig, g =>
      let i1 := i + 1
      let i2 :=
        match toks[i1]? with
        | some t => if t.type == .COLON then i1 + 1 else i1
        | none => i1
      match scanEphemeralEnd toks (toks.length + 1) i2 1 with
      | none => (.error (.fail "EPHEMERAL: unmatched END EPHEMERAL for block"), sig, g)
      | some endPos =>
          match execBlock f prog (slice toks i2 endPos) sig g with
          | (.error e, sig1, g1) => (.error e, sig1, g1)
          | (.ok _, sig1, g1) => (.ok (skipDot toks (endPos + 2)), sig1, g1)
termination_by structural f => f

/-- execOmenBlock: snapshot, run the protected body catching omenError, and
on a matching raise roll back and run the FALLS_TO_RUIN block.  In the
current runtime RAISE OMEN never produces an omenError, so the caught-omen
branches are unreachable from RAISE. -/

def execOmenBlock : Nat → Program → List Token → Nat → Sig → Glob →
    Except RErr Nat × Sig × Glob
  | 0, _, _, _, sig, g => (.error .fuelOut, sig, g)
  | f + 1, prog, toks, i, sig, g =>
      match toks[i + 1]? with
      | none => (.error (.fail "OMEN: expected OMEN name string after OMEN"), sig, g)
      | some ts =>
          if ts.type == .STRING then
            let omenName := ts.lexeme
            let i1 := i + 2
            let i2 :=
              match toks[i1]? with
              | some tc => if tc.type == .COLON then i1 + 1 else i1
              | none => i1
            let bodyStart := i2
            match scanOmenEnd toks (toks.length + 1) i2 1 .NEWLINE none with
            | (_, none) => (.error (.fail "OMEN: unmatched ENDOMEN for OMEN"), sig, g)
            | (ruinStart, some endPos) =>
                let tryEnd := ruinStart.getD endPos
                let snapshot := cloneSigils sig
                match execBlockWithOmen f prog (slice toks bodyStart tryEnd) sig g with
                | (.error e, sig1, g1) => (.error e, sig1, g1)
                | (.ok none, sig1, g1) => (.ok (endPos + 1), sig1, g1)
                | (.ok (some raisedName), sig1, g1) =>
                    if raisedName ≠ omenName then (.error (.omen raisedName), sig1, g1)
                    else
                      let sig2 := snapshot
                      match ruinStart with
                      | none => (.ok (endPos + 1), sig2, g1)
                      | some rs =>
                          let k1 := rs + 1
                          let k2 :=
                            if k1 < endPos then
                              match toks[k1]? with
                              | some t => if t.type == .COLON then k1 + 1 else k1
                              | none => k1
                            else k1
                          let k3 := skipNewlinesBefore toks endPos (toks.length + 1) k2
                          match execBlock f prog (slice toks k3 endPos) sig2 g1 with
                          | (.error e, sig3, g3) => (.error e, sig3, g3)
                          | (.ok _, sig3, g3) => (.ok (endPos + 1), sig3, g3)
          else (.error (.fail "OMEN: expected OMEN name string after OMEN"), sig, g)
termination_by structural f => f

/-- execFallsToRuin as a standalone statement: log and clear all OMENs. -/

def execFallsToRuin : Nat → Program → List Token → Nat → Sig → Glob →
    Except RErr Nat × Sig × Glob
  | 0, _, _, _, sig, g => (.error .fuelOut, sig, g)
  | f + 1, prog, toks, i, sig, g =>
      match toks[i + 1]? with
      | some tc =>
          if tc.type == .COLON then
            let i1 := i + 2
            let iEnd := advanceUntil stmtStops toks (toks.length + 1) i1
            match evalStringExpr f prog (slice toks i1 iEnd) sig g with
            | (.error e, g1) => (.error e, sig, g1)
            | (.ok msg, g1) =>
                (.ok (skipDot toks iEnd), clearAllOmens sig,
                 pushOut g1 ("[SIC RUIN] " ++ msg))
          else (.error (.fail "FALLS_TO_RUIN: expected COLON after FALLS_TO_RUIN"), sig, g)
      | none => (.error (.fail "FALLS_TO_RUIN: expected COLON after FALLS_TO_RUIN"), sig, g)
termination_by structural f => f

/-- execWeaveBlock: sequential orchestration; body may contain only SUMMON
statements, executed in order, aborting on the first failure. -/

def execWeaveBlock : Nat → Program → List Token → Nat → Sig → Glob →
    Except RErr Nat × Glob
  | 0, _, _, _, _, g => (.error .fuelOut, g)
  | f + 1, prog, toks, i, sig, g =>
      match toks[i + 1]? with
      | some tc =>
          if tc.type == .COLON then execWeaveLoop f prog toks (i + 2) sig g
          else (.error (.fail "WEAVE: expected COLON after WEAVE"), g)
      | none => (.error (.fail "WEAVE: expected COLON after WEAVE"), g)
termination_by structural f => f

/-- The WEAVE statement loop. -/

def execWeaveLoop : Nat → Program → List Token → Nat → Sig → Glob →
    Except RErr Nat × Glob
  | 0, _, _, _, _, g => (.error .fuelOut, g)
  | f + 1, prog, toks, i, sig, g =>
      match toks[i]? with
      | none => (.error (.fail "WEAVE: missing ENDWEAVE for block"), g)
      | some tok =>
          if tok.type == .NEWLINE then execWeaveLoop f prog toks (i + 1) sig g
          else if tok.type == .ENDWEAVE then (.ok (skipDot toks (i + 1)), g)
          else if tok.type == .SUMMON then
            match execSummonStmt f prog toks i sig g with
            | (.error e, g1) => (.error e, g1)
            | (.ok i1, g1) => execWeaveLoop f prog toks i1 sig g1
          else (.error (.fail "WEAVE: unexpected token"), g)
termination_by structural f => f

/-- execChoirBlock: isolated orchestration; every branch gets its own full
copy of the pre-block sigils, all branches run, and the first failure in
declaration order is surfaced. -/

def execChoirBlock : Nat → Program → List Token → Nat → Sig → Glob →
    Except RErr Nat × Sig × Glob
  | 0, _, _, _, sig, g => (.error .fuelOut, sig, g)
  | f + 1, prog, toks, i, sig, g =>
      let i1 := i + 1
      let i2 :=
        match toks[i1]? with
        | some t => if t.type == .COLON then i1 + 1 else i1
        | none => i1
      let i3 := skipNewlinesAll toks (toks.length + 1) i2
      match scanChoirEnd toks (toks.length + 1) i3 with
      | none => (.error (.fail "CHOIR: missing ENDCHOIR for block"), sig, g)
      | some endPos =>
          match collectChoirStarts toks endPos (endPos + 1) i3 with
          | .error e => (.error e, sig, g)
          | .ok starts =>
              if starts.isEmpty then (.ok (skipDot toks (endPos + 1)), sig, g)
              else
                let (errs, g1) := runChoirBranches f prog toks starts sig g
                match firstErr errs with
                | some e => (.error e, sig, g1)
                | none => (.ok (skipDot toks (endPos + 1)), sig, g1)
termination_by structural f => f

/-- One result per CHOIR branch, each executed on its own clone of the
pre-block sigil table (the goroutine fan-out, serialized). -/

def runChoirBranches : Nat → Program → List Token → List Nat → Sig → Glob →
    List (Option RErr) × Glob
  | 0, _, _, _, _, g => ([some RErr.fuelOut], g)
  | f + 1, prog, toks, starts, sig, g =>
      match starts with
      | [] => ([], g)
      | s :: rest =>
          let child := cloneSigils sig
          match execSummonStmt f prog toks s child g with
          | (.error e, g1) =>
              let (es, g2) := runChoirBranches f prog toks rest sig g1
              (some e :: es, g2)
          | (.ok _, g1) =>
              let (es, g2) := runChoirBranches f prog toks rest sig g1
              (none :: es, g2)
termination_by structural f => f

/-- execWhile: pretest loop with the hard iteration cap. -/

def execWhile : Nat → Program → List Token → Nat → Sig → Glob →
    Except RErr Nat × Sig × Glob
  | 0, _, _, _, sig, g => (.error .fuelOut, sig, g)
  | f + 1, prog, toks, i, sig, g =>
      let i1 := skipNewlinesAll toks (toks.length + 1) (i + 1)
      let condStart := i1
      let i2 := advanceUntil [TokType.COLON] toks (toks.length + 1) i1
      match toks[i2]? with
      | none => (.error (.fail "WHILE: expected COLON after condition"), sig, g)
      | some _ =>
          let condTokens := slice toks condStart i2
          let i3 := skipNewlinesAll toks (toks.length + 1) (i2 + 1)
          match scanWhileEnd toks (toks.length + 1) i3 1 with
          | none => (.error (.fail "WHILE: unmatched ENDWHILE for WHILE"), sig, g)
          | some endPos =>
              match execWhileLoop f prog condTokens (slice toks i3 endPos) 0 sig g with
              | (.error e, sig1, g1) => (.error e, sig1, g1)
              | (.ok _, sig1, g1) => (.ok (skipDot toks (endPos + 1)), sig1, g1)
termination_by structural f => f

/-- The WHILE iteration loop with the 100000-iteration safety cap. -/

def execWhileLoop : Nat → Program → List Token → List Token → Nat → Sig → Glob →
    Except RErr Unit × Sig × Glob
  | 0, _, _, _, _, sig, g => (.error .fuelOut, sig, g)
  | f + 1, prog, cond, body, iter, sig, g =>
      if iter ≥ 100000 then (.error (.fail "WHILE: exceeded 100000 iterations"), sig, g)
      else
        match evalBoolExpr f prog cond sig g with
        | (.error e, g1) => (.error e, sig, g1)
        | (.ok b, g1) =>
            if ¬ b then (.ok (), sig, g1)
            else
              match execBlock f prog body sig g1 with
              | (.error e, sig1, g2) => (.error e, sig1, g2)
              | (.ok _, sig1, g2) => execWhileLoop f prog cond body (iter + 1) sig1 g2
termination_by structural f => f

/-- execIf: classic conditional with optional ELSE, closed by END or ENDIF. -/

def execIf : Nat → Program → List Token → Nat → Sig → Glob →
    Except RErr Nat × Sig × Glob
  | 0, _, _, _, sig, g => (.error .fuelOut, sig, g)
  | f + 1, prog, toks, i, sig, g =>
      let i1 := skipNewlinesAll toks (toks.length + 1) (i + 1)
      let condEnd := scanIfCondEnd toks (toks.length + 1) i1
      let condTokens := slice toks i1 condEnd
      if condTokens.isEmpty then (.error (.fail "IF: expected condition after IF"), sig, g)
      else
        let j1 :=
          match toks[condEnd]? with
          | some t =>
              if t.type == .IDENT && equalFold t.lexeme "THEN" then condEnd + 1 else condEnd
          | none => condEnd
        match toks[j1]? with
        | none => (.error (.fail "IF: expected COLON after condition"), sig, g)
        | some tc =>
            if tc.type == .COLON then
              let j2 := skipNewlinesAll toks (toks.length + 1) (j1 + 1)
              let thenStart := j2
              match scanIfEnd toks (toks.length + 1) j2 1 none with
              | (_, none) => (.error (.fail "IF: unmatched ENDIF for IF"), sig, g)
              | (elseStart, some endPos) =>
                  match evalBoolExpr f prog condTokens sig g with
                  | (.error e, g1) => (.error e, sig, g1)
                  | (.ok cond, g1) =>
                      if cond then
                        let thenEnd := elseStart.getD endPos
                        match execBlock f prog (slice toks thenStart thenEnd) sig g1 with
                        | (.error e, sig1, g2) => (.error e, sig1, g2)
                        | (.ok _, sig1, g2) => (.ok (skipDot toks (endPos + 1)), sig1, g2)
                      else
                        match elseStart with
                        | some es =>
                            let k1 := es + 1
                            let k2 :=
                              if k1 < endPos then
                                match toks[k1]? with
                                | some t => if t.type == .COLON then k1 + 1 else k1
                                | none => k1
                              else k1
                            let k3 := skipNewlinesBefore toks endPos (toks.length + 1) k2
                            match execBlock f prog (slice toks k3 endPos) sig g1 with
                            | (.error e, sig1, g2) => (.error e, sig1, g2)
                            | (.ok _, sig1, g2) => (.ok (skipDot toks (endPos + 1)), sig1, g2)
                        | none => (.ok (skipDot toks (endPos + 1)), sig, g1)
            else (.error (.fail "IF: expected COLON after condition"), sig, g)
termination_by structural f => f

/-- execIfOmen: IF OMEN name IS PRESENT THEN: conditioned on the OMEN flag. -/

def execIfOmen : Nat → Program → List Token → Nat → Sig → Glob →
    Except RErr Nat × Sig × Glob
  | 0, _, _, _, sig, g => (.error .fuelOut, sig, g)
  | f + 1, prog, toks, i, sig, g =>
      match toks[i + 1]? with
      | none => (.error (.fail "IF OMEN: expected OMEN after IF"), sig, g)
      | some to1 =>
          if to1.type == .OMEN then
            match toks[i + 2]? with
            | none => (.error (.fail "IF OMEN: expected OMEN name"), sig, g)
            | some tn =>
                if tn.type == .STRING || tn.type == .IDENT then
                  let omenName := tn.lexeme
                  let i1 := i + 3
                  let i2 : Nat :=
                    match toks[i1]?, toks[i1 + 1]? with
                    | some ta, some tb =>
                        if ta.type == .IDENT && ta.lexeme == "IS" &&
                           tb.type == .IDENT && tb.lexeme == "PRESENT" then i1 + 2
                        else i1
                    | _, _ => i1
                  let i3 : Nat :=
                    match toks[i2]? with
                    | some t => if t.type == .IDENT && t.lexeme == "THEN" then i2 + 1 else i2
                    | none => i2
                  match toks[i3]? with
                  | none => (.error (.fail "IF OMEN: expected COLON after condition"), sig, g)
                  | some tc =>
                      if tc.type == .COLON then
                        let j := skipNewlinesAll toks (toks.length + 1) (i3 + 1)
                        match scanIfOmenEnd toks (toks.length + 1) j 1 none with
                        | (_, none) => (.error (.fail "IF OMEN: unmatched END for IF"), sig, g)
                        | (elseStart, some endPos) =>
                            let cond := omenPresent sig omenName
                            if cond then
                              let thenEnd := elseStart.getD endPos
                              match execBlock f prog (slice toks j thenEnd) sig g with
                              | (.error e, sig1, g1) => (.error e, sig1, g1)
                              | (.ok _, sig1, g1) => (.ok (endPos + 1), sig1, g1)
                            else
                              match elseStart with
                              | some es =>
                                  let k1 := es + 1
                                  let k2 :=
                                    if k1 < endPos then
                                      match toks[k1]? with
                                      | some t => if t.type == .COLON then k1 + 1 else k1
                                      | none => k1
                                    else k1
                                  let k3 := skipNewlinesBefore toks endPos (toks.length + 1) k2
                                  match execBlock f prog (slice toks k3 endPos) sig g with
                                  | (.error e, sig1, g1) => (.error e, sig1, g1)
                                  | (.ok _, sig1, g1) => (.ok (endPos + 1), sig1, g1)
                              | none => (.ok (endPos + 1), sig, g)
                      else (.error (.fail "IF OMEN: expected COLON after condition"), sig, g)
                else (.error (.fail "IF OMEN: expected OMEN name"), sig, g)
          else (.error (.fail "IF OMEN: expected OMEN after IF"), sig, g)
termination_by structural f => f

/-- execChamberBlock: clone the sigils for the body, swap in a fresh
entanglement ledger, fail on a non-empty ledger at exit, and always restore
the enclosing ledger; the child sigils are discarded on every path. -/

def execChamberBlock : Nat → Program → List Token → Nat → Sig → Glob →
    Except RErr Nat × Sig × Glob
  | 0, _, _, _, sig, g => (.error .fuelOut, sig, g)
  | f + 1, prog, toks, i, sig, g =>
      let i1 := i + 1
      let i2 :=
        match toks[i1]? with
        | some t => if t.type == .IDENT then i1 + 1 else i1
        | none => i1
      match toks[i2]? with
      | none => (.error (.fail "CHAMBER: expected COLON after header"), sig, g)
      | some tc =>
          if tc.type == .COLON then
            let bodyStart := i2 + 1
            match scanChamberEnd toks (toks.length + 1) bodyStart 1 with
            | none => (.error (.fail "CHAMBER: unmatched ENDCHAMBER for CHAMBER"), sig, g)
            | some endPos =>
                let child := cloneSigils sig
                let oldEnt := g.entangled
                let g1 := { g with entangled := [] }
                match execBlock f prog (slice toks bodyStart endPos) child g1 with
                | (.error e, _, g2) => (.error e, sig, { g2 with entangled := oldEnt })
                | (.ok _, _, g2) =>
                    if g2.entangled.isEmpty then
                      (.ok (skipDot toks (endPos + 1)), sig, { g2 with entangled := oldEnt })
                    else
                      (.error (.fail "EPHEMERAL: entangle leak in CHAMBER"), sig,
                       { g2 with entangled := oldEnt })
          else (.error (.fail "CHAMBER: expected COLON after header"), sig, g)
termination_by structural f => f

/-- execBlock: run a token slice as a synthetic WORK named BLOCK. -/

def execBlock : Nat → Program → List Token → Sig → Glob →
    Except RErr Unit × Sig × Glob
  | 0, _, _, sig, g => (.error .fuelOut, sig, g)
  | f + 1, prog, body, sig, g =>
      match execWork f prog { name := "BLOCK", body := body } sig g false with
      | (.error e, sig1, g1) => (.error e, sig1, g1)
      | (.ok _, sig1, g1) => (.ok (), sig1, g1)
termination_by structural f => f

/-- execBlockWithOmen: like execBlock (in answer-capturing mode) but
separating a caught omenError from other errors. -/

def execBlockWithOmen : Nat → Program → List Token → Sig → Glob →
    Except RErr (Option String) × Sig × Glob
  | 0, _, _, sig, g => (.error .fuelOut, sig, g)
  | f + 1, prog, body, sig, g =>
      match execWork f prog { name := "BLOCK", body := body } sig g true with
      | (.error (.omen n), sig1, g1) => (.ok (some n), sig1, g1)
      | (.error e, sig1, g1) => (.error e, sig1, g1)
      | (.ok _, sig1, g1) => (.ok none, sig1, g1)
termination_by structural f => f

/-- execSummonStmt: SUMMON as a statement, consuming trailing tokens. -/

def execSummonStmt : Nat → Program → List Token → Nat → Sig → Glob →
    Except RErr Nat × Glob
  | 0, _, _, _, _, g => (.error .fuelOut, g)
  | f + 1, prog, toks, i, sig, g =>
      match evalSummonExpr f prog toks i sig g with
      | (.error e, g1) => (.error e, g1)
      | (.ok (_, consumed), g1) =>
          let i1 := advanceUntil [TokType.DOT, .NEWLINE, .ENDWEAVE, .ENDWORK] toks
                      (toks.length + 1) (i + consumed)
          (.ok (skipDot toks i1), g1)
termination_by structural f => f

/-- execSleep: parse and validate the duration; the wall-clock pause itself
is outside the model. -/

def execSleep : Nat → Program → List Token → Nat → Sig → Glob →
    Except RErr Nat × Glob
  | 0, _, _, _, _, g => (.error .fuelOut, g)
  | f + 1, prog, toks, i, sig, g =>
      let i1 :=
        match toks[i + 1]? with
        | some t =>
            if t.type == .FOR || (t.type == .IDENT && equalFold t.lexeme "FOR") then i + 2
            else i + 1
        | none => i + 1
      let iEnd := scanSleepEnd toks (toks.length + 1) i1
      if i1 = iEnd then (.error (.fail "SLEEP: expected duration"), g)
      else
        let exprTokens := normalizeExprTokens (slice toks i1 iEnd)
        match parseOr f prog exprTokens 0 sig g with
        | (.error e, g1) => (.error e, g1)
        | (.ok (v, _), g1) =>
            match v.asFloat with
            | none => (.error (.fail "SLEEP: duration must be numeric"), g1)
            | some secs =>
                if qLt secs (Qv.ofInt 0) then (.error (.fail "SLEEP: duration must be nonnegative"), g1)
                else
                  let i2 :=
                    match toks[iEnd]? with
                    | some t =>
                        if t.type == .SECONDS ||
                           (t.type == .IDENT && equalFold t.lexeme "SECONDS") then iEnd + 1
                        else iEnd
                    | none => iEnd
                  (.ok (skipDot toks i2), g1)
termination_by structural f => f

/-- execArcworkBlock: ARCWORK: RAISE and LOWER updates until ENDARCWORK. -/

def execArcworkBlock : Nat → Program → List Token → Nat → Sig → Glob →
    Except RErr Nat × Sig × Glob
  | 0, _, _, _, sig, g => (.error .fuelOut, sig, g)
  | f + 1, prog, toks, i, sig, g =>
      match toks[i + 1]? with
      | some tc =>
          if tc.type == .COLON then execArcLoop f prog toks (i + 2) sig g
          else (.error (.fail "ARCWORK: expected COLON after ARCWORK"), sig, g)
      | none => (.error (.fail "ARCWORK: expected COLON after ARCWORK"), sig, g)
termination_by structural f => f

/-- The ARCWORK statement loop. -/

def execArcLoop : Nat → Program → List Token → Nat → Sig → Glob →
    Except RErr Nat × Sig × Glob
  | 0, _, _, _, sig, g => (.error .fuelOut, sig, g)
  | f + 1, prog, toks, i, sig, g =>
      match toks[i]? with
      | none => (.error (.fail "ARCWORK: missing ENDARCWORK for block"), sig, g)
      | some tok =>
          if tok.type == .NEWLINE then execArcLoop f prog toks (i + 1) sig g
          else if tok.type == .IDENT && tok.lexeme == "ENDARCWORK" then
            (.ok (skipDot toks (i + 1)), sig, g)
          else if tok.type == .RAISE then
            match execArcRaise f toks i sig g with
            | (.error e, sig1, g1) => (.error e, sig1, g1)
            | (.ok i1, sig1, g1) => execArcLoop f prog toks i1 sig1 g1
          else if tok.type == .IDENT && tok.lexeme == "LOWER" then
            match execArcLower toks i sig with
            | (.error e, sig1) => (.error e, sig1, g)
            | (.ok i1, sig1) => execArcLoop f prog toks i1 sig1 g
          else (.error (.fail "ARCWORK: unexpected token"), sig, g)
termination_by structural f => f

/-- execArcRaise: RAISE name amount — adds to the numeric current value,
preserving integer rendering when possible (parseOr runs with no program,
as the Go call passes nil). -/

def execArcRaise : Nat → List Token → Nat → Sig → Glob →
    Except RErr Nat × Sig × Glob
  | 0, _, _, sig, g => (.error .fuelOut, sig, g)
  | f + 1, toks, i, sig, g =>
      let i1 := skipNewlinesAll toks (toks.length + 1) (i + 1)
      match toks[i1]? with
      | none => (.error (.fail "RAISE: expected target after RAISE"), sig, g)
      | some t0 =>
          let i2 := if t0.type == .DOLLAR || t0.type == .SIGIL then i1 + 1 else i1
          match toks[i2]? with
          | none => (.error (.fail "RAISE: expected SIGIL name after RAISE"), sig, g)
          | some t1 =>
              if t1.type == .IDENT then
                let name := t1.lexeme
                let i3 := i2 + 1
                let iEnd := scanArcAmountEnd toks (toks.length + 1) i3
                if i3 = iEnd then
                  (.error (.fail ("RAISE: expected amount after SIGIL " ++ name)), sig, g)
                else
                  let amtTokens := normalizeExprTokens (slice toks i3 iEnd)
                  match parseOr f { works := [] } amtTokens 0 sig g with
                  | (.error e, g1) => (.error e, sig, g1)
                  | (.ok (amtVal, _), g1) =>
                      match amtVal.asFloat with
                      | none =>
                          (.error (.fail ("RAISE: amount must be numeric for SIGIL " ++ name)),
                           sig, g1)
                      | some amt =>
                          let curStr := (getSigil sig name).getD ""
                          let cur : Qv :=
                            if sTrim curStr = "" then Qv.ofInt 0
                            else
                              match parseFloatQ (sTrim curStr) with
                              | some q => q
                              | none => Qv.ofInt 0
                          let newVal := qAdd cur amt
                          let sig1 :=
                            if qEq (Qv.ofInt (qTrunc newVal)) newVal then
                              setSigil sig name (ToString.toString (qTrunc newVal))
                            else setSigil sig name (formatG newVal)
                          (.ok (skipDot toks iEnd), sig1, g1)
              else (.error (.fail "RAISE: expected SIGIL name after RAISE"), sig, g)
termination_by structural f => f


end

-- ---------------- service dispatch request handlers ----------------
--
-- The ALTAR statement itself opens a live HTTP listener and is outside the
-- executable model; the per-request handler closures it registers (one for
-- WORK routes, one for inline SEND BACK routes) and the helper functions
-- they call are embedded here over an explicit request value.

/-- An inbound HTTP request as the handlers observe it. -/
structure HttpRequest where
  method : String
  path : String
  rawQuery : String
  queryParams : List (String × List String)
  body : String
deriving DecidableEq, Repr

/-- The response the handler writes: status, content type, extra headers and
the body bytes (the handlers always append a newline on write). -/
structure HttpResponse where
  status : Nat
  contentType : String
  headerPairs : List (String × String)
  body : String
deriving DecidableEq, Repr

/-- injectRequestSigils: REQUEST_METHOD, REQUEST_PATH, REQUEST_QUERY, one
Q_ sigil per query key (uppercased, first value), then REQUEST_BODY. -/
def injectRequestSigils (child : Sig) (r : HttpRequest) : Sig :=
  let c := setSigil child "REQUEST_METHOD" r.method
  let c := setSigil c "REQUEST_PATH" r.path
  let c := setSigil c "REQUEST_QUERY" r.rawQuery
  let c := r.queryParams.foldl
    (fun acc kv =>
      match kv.2 with
      | [] => acc
      | v :: _ => setSigil acc ("Q_" ++ sToUpper kv.1) v)
    c
  setSigil c "REQUEST_BODY" r.body

/-- chooseContentType: the response_content_type sigil, else a .json path
suffix, else the default. -/
def chooseContentType (defaultCT path : String) (sigils : Sig) : String :=
  match getSigil sigils "response_content_type" with
  | some ct =>
      if sTrim ct ≠ "" then sTrim ct
      else if sEndsWith path ".json" then "application/json; charset=utf-8"
      else defaultCT
  | none =>
      if sEndsWith path ".json" then "application/json; charset=utf-8"
      else defaultCT

/-- getResponseStatus: the response_status sigil when it parses to 100..599,
else 200. -/
def getResponseStatus (sigils : Sig) : Nat :=
  let raw := sTrim ((getSigil sigils "response_status").getD "")
  if raw = "" then 200
  else
    match parseIntD raw with
    | none => 200
    | some n => if n < 100 || n > 599 then 200 else n.toNat

/-- applyResponseHeaders: every response_header_ sigil becomes a header with
underscores replaced by dashes. -/
def buildResponseHeaders (sigils : Sig) : List (String × String) :=
  sigils.foldl
    (fun acc kv =>
      if sStartsWith kv.1 "response_header_" then
        let hname := sTrim (sReplaceChar (sDrop kv.1 "response_header_".length) '_' '-')
        if hname = "" then acc else setSigil acc hname kv.2
      else acc)
    []

/-- pickResponseBody: a non-blank response_body sigil (trimmed) overrides. -/
def pickResponseBody (defaultBody : String) (sigils : Sig) : String :=
  let b := sTrim ((getSigil sigils "response_body").getD "")
  if b ≠ "" then b else defaultBody

/-- http.Error as the handlers use it: plain text message plus newline. -/
def errorResponse (msg : String) (status : Nat) : HttpResponse :=
  { status := status, contentType := "text/plain; charset=utf-8",
    headerPairs := [], body := msg ++ "\n" }

/-- The inline SEND BACK route handler closure: method check, fresh visible
clone of the declaration-time sigils, request injection, expression
evaluation, empty-body default, response shaping, and the newline append. -/
def handleInlineRoute (f : Nat) (prog : Program) (m p : String) (exprToks : List Token)
    (parent : Sig) (g : Glob) (r : HttpRequest) : HttpResponse × Glob :=
  if r.method ≠ m then (errorResponse "method not allowed" 405, g)
  else
    let child := injectRequestSigils (cloneVisibleSigils [] parent) r
    match evalStringExpr f prog exprToks child g with
    | (.error _, g1) => (errorResponse "internal error" 500, g1)
    | (.ok val0, g1) =>
        let val1 := if val0 = "" then "OK" else val0
        let val2 := pickResponseBody val1 child
        ({ status := getResponseStatus child,
           contentType := chooseContentType "text/plain; charset=utf-8" p child,
           headerPairs := buildResponseHeaders child,
           body := val2 ++ "\n" }, g1)

/-- The WORK route handler closure: the captured answer of the WORK becomes
the body (default OK), with response sigils read from the table the WORK
mutated. -/
def handleWorkRoute (f : Nat) (prog : Program) (m p handlerName : String)
    (parent : Sig) (g : Glob) (r : HttpRequest) : HttpResponse × Glob :=
  if r.method ≠ m then (errorResponse "method not allowed" 405, g)
  else
    match findWork prog handlerName with
    | none => (errorResponse "handler not found" 404, g)
    | some work =>
        let child := injectRequestSigils (cloneVisibleSigils [] parent) r
        match execWork f prog work child g true with
        | (.error _, _, g1) => (errorResponse "internal error" 500, g1)
        | (.ok body0, child1, g1) =>
            let body1 := if body0 = "" then "OK" else body0
            let body2 := pickResponseBody body1 child1
            ({ status := getResponseStatus child1,
               contentType := chooseContentType "text/plain; charset=utf-8" p child1,
               headerPairs := buildResponseHeaders child1,
               body := body2 ++ "\n" }, g1)

-- ---------------- sigil-table lemmas ----------------

theorem getSigil_setSigil (s : Sig) (k v n : String) :
    getSigil (setSigil s k v) n = if k = n then some v else getSigil s n := by
  induction s with
  | nil => simp [setSigil, getSigil]
  | cons hd tl ih =>
      obtain ⟨a, b⟩ := hd
      by_cases h1 : a = k
      · subst h1
        by_cases h2 : a = n <;> simp [setSigil, getSigil, h2]
      · by_cases h2 : a = n
        · subst h2
          have hk : k ≠ a := fun hh => h1 hh.symm
          simp [setSigil, getSigil, h1, hk]
        · simp [setSigil, getSigil, h1, h2, ih]

theorem getSigil_delSigil (s : Sig) (m n : String) :
    getSigil (delSigil s m) n = if m = n then none else getSigil s n := by
  induction s with
  | nil => simp [delSigil, getSigil]
  | cons hd tl ih =>
      obtain ⟨a, b⟩ := hd
      by_cases h1 : a = m
      · subst h1
        by_cases h2 : a = n
        · subst h2; simp [delSigil, getSigil, ih]
        · simp [delSigil, getSigil, h2, ih]
      · by_cases h2 : a = n
        · subst h2
          have hm : m ≠ a := fun hh => h1 hh.symm
          simp [delSigil, getSigil, h1, hm]
        · simp [delSigil, getSigil, h1, h2, ih]

theorem getSigil_scrubEph_of_none (eph : List String) (s : Sig) (n : String)
    (h : getSigil s n = none) : getSigil (scrubEph eph s) n = none := by
  induction eph generalizing s with
  | nil => simpa [scrubEph] using h
  | cons a rest ih =>
      simp only [scrubEph]
      apply ih
      rw [getSigil_delSigil, getSigil_delSigil]
      split
      · rfl
      · split
        · rfl
        · exact h

theorem getSigil_scrubEph_of_mem (eph : List String) (s : Sig) (n : String)
    (h : n ∈ eph) : getSigil (scrubEph eph s) n = none := by
  induction eph generalizing s with
  | nil => exact absurd h (List.not_mem_nil n)
  | cons a rest ih =>
      simp only [scrubEph]
      rcases List.mem_cons.mp h with h1 | h2
      · subst h1
        apply getSigil_scrubEph_of_none
        rw [getSigil_delSigil, getSigil_delSigil]
        split
        · rfl
        · simp
      · exact ih _ h2

-- ---------------- concrete programs used by the claims ----------------

/-- Shorthand token constructor. -/
def tkn (t : TokType) (lx : String := "") : Token := { type := t, lexeme := lx }

/-- C1 program: a protected region named x whose body re-binds A and raises
the matching failure, with a recovery body that would bind R. -/
def c1Toks : List Token :=
  [tkn .OMEN, tkn .STRING "x", tkn .COLON, tkn .NEWLINE,
   tkn .LET, tkn .SIGIL, tkn .IDENT "A", tkn .BE, tkn .STRING "2", tkn .DOT, tkn .NEWLINE,
   tkn .RAISE, tkn .OMEN, tkn .STRING "x", tkn .DOT, tkn .NEWLINE,
   tkn .IDENT "FALLS_TO_RUIN", tkn .COLON, tkn .NEWLINE,
   tkn .LET, tkn .SIGIL, tkn .IDENT "R", tkn .BE, tkn .STRING "rec", tkn .DOT, tkn .NEWLINE,
   tkn .ENDOMEN, tkn .DOT]

/-- C2 program: bind an invisible sigil and return it through THUS WE ANSWER. -/
def c2LeakWork : WorkDecl :=
  { name := "LEAK",
    body := [tkn .NEWLINE,
             tkn .LET, tkn .IDENT "INVISIBLE", tkn .SIGIL, tkn .IDENT "S", tkn .BE,
             tkn .STRING "doom", tkn .DOT, tkn .NEWLINE,
             tkn .THUS, tkn .WE, tkn .ANSWER, tkn .WITH, tkn .IDENT "S", tkn .DOT,
             tkn .NEWLINE] }

/-- C2 contrast program: the same invisible sigil rendered through SAY. -/
def c2SayWork : WorkDecl :=
  { name := "SAYIT",
    body := [tkn .NEWLINE,
             tkn .LET, tkn .IDENT "INVISIBLE", tkn .SIGIL, tkn .IDENT "S", tkn .BE,
             tkn .STRING "doom", tkn .DOT, tkn .NEWLINE,
             tkn .SAY, tkn .COLON, tkn .IDENT "S", tkn .DOT, tkn .NEWLINE] }

def c2Prog : Program := { works := [c2LeakWork, c2SayWork] }

/-- An environment holding the invisible sigil S = doom. -/
def c2Sig : Sig := [("S", "doom"), (sicInvisibleMetaKey ++ "S", "1")]

def c2Req : HttpRequest :=
  { method := "GET", path := "/secret", rawQuery := "", queryParams := [], body := "" }

/-- C3 witness program: a frame binding the ephemeral sigil T. -/
def c3Work : WorkDecl :=
  { name := "F",
    body := [tkn .NEWLINE,
             tkn .LET, tkn .EPHEMERAL, tkn .SIGIL, tkn .IDENT "T", tkn .BE,
             tkn .STRING "1", tkn .DOT, tkn .NEWLINE] }

/-- C4 program: a SEALED WORK with its header SEAL token. -/
def c4Vault : WorkDecl :=
  { name := "VAULT", sealed := true, sealToken := "vault_key",
    body := [tkn .NEWLINE, tkn .THUS, tkn .WE, tkn .ANSWER, tkn .WITH,
             tkn .STRING "TREASURE", tkn .DOT] }

def c4Prog : Program := { works := [c4Vault] }

/-- C4 invocation: SUMMON WORK VAULT with no passphrase anywhere. -/
def c4Summon : List Token := [tkn .SUMMON, tkn .WORK, tkn .IDENT "VAULT"]

/-- Branch works for the orchestration claims: A and C have observable side
effects, B fails (SAY without its colon is a structural error). -/
def workA : WorkDecl :=
  { name := "A",
    body := [tkn .NEWLINE, tkn .SAY, tkn .COLON, tkn .STRING "A side effect",
             tkn .DOT, tkn .NEWLINE] }

def workB : WorkDecl :=
  { name := "B", body := [tkn .NEWLINE, tkn .SAY, tkn .DOT, tkn .NEWLINE] }

def workC : WorkDecl :=
  { name := "C",
    body := [tkn .NEWLINE, tkn .SAY, tkn .COLON, tkn .STRING "C side effect",
             tkn .DOT, tkn .NEWLINE] }

def progABC : Program := { works := [workA, workB, workC] }

def weaveToks : List Token :=
  [tkn .WEAVE, tkn .COLON, tkn .NEWLINE,
   tkn .SUMMON, tkn .WORK, tkn .IDENT "A", tkn .DOT, tkn .NEWLINE,
   tkn .SUMMON, tkn .WORK, tkn .IDENT "B", tkn .DOT, tkn .NEWLINE,
   tkn .SUMMON, tkn .WORK, tkn .IDENT "C", tkn .DOT, tkn .NEWLINE,
   tkn .ENDWEAVE, tkn .DOT]

def choirToks : List Token :=
  [tkn .CHOIR, tkn .COLON, tkn .NEWLINE,
   tkn .SUMMON, tkn .WORK, tkn .IDENT "A", tkn .DOT, tkn .NEWLINE,
   tkn .SUMMON, tkn .WORK, tkn .IDENT "B", tkn .DOT, tkn .NEWLINE,
   tkn .SUMMON, tkn .WORK, tkn .IDENT "C", tkn .DOT, tkn .NEWLINE,
   tkn .ENDCHOIR, tkn .DOT]

/-- C7 scenarios over an enclosing frame that already entangled outer. -/
def chamberLeakToks : List Token :=
  [tkn .CHAMBER, tkn .IDENT "c", tkn .COLON, tkn .NEWLINE,
   tkn .ENTANGLE, tkn .IDENT "x", tkn .DOT, tkn .NEWLINE, tkn .ENDCHAMBER, tkn .DOT]

def chamberCleanToks : List Token :=
  [tkn .CHAMBER, tkn .IDENT "c", tkn .COLON, tkn .NEWLINE,
   tkn .ENTANGLE, tkn .IDENT "x", tkn .DOT, tkn .NEWLINE,
   tkn .RELEASE, tkn .IDENT "x", tkn .DOT, tkn .NEWLINE, tkn .ENDCHAMBER, tkn .DOT]

def chamberDoubleToks : List Token :=
  [tkn .CHAMBER, tkn .IDENT "c", tkn .COLON, tkn .NEWLINE,
   tkn .ENTANGLE, tkn .IDENT "x", tkn .DOT, tkn .NEWLINE,
   tkn .ENTANGLE, tkn .IDENT "x", tkn .DOT, tkn .NEWLINE, tkn .ENDCHAMBER, tkn .DOT]

def chamberReleaseToks : List Token :=
  [tkn .CHAMBER, tkn .IDENT "c", tkn .COLON, tkn .NEWLINE,
   tkn .RELEASE, tkn .IDENT "x", tkn .DOT, tkn .NEWLINE, tkn .ENDCHAMBER, tkn .DOT]

def chamberMutToks : List Token :=
  [tkn .CHAMBER, tkn .IDENT "c", tkn .COLON, tkn .NEWLINE,
   tkn .LET, tkn .SIGIL, tkn .IDENT "p", tkn .BE, tkn .STRING "999", tkn .DOT,
   tkn .NEWLINE, tkn .ENDCHAMBER, tkn .DOT]

/-- C8 request: GET /hello?name=Ada. -/
def c8Req : HttpRequest :=
  { method := "GET", path := "/hello", rawQuery := "name=Ada",
    queryParams := [("name", ["Ada"])], body := "" }

/-- C8 inline route expression tokens for Hello plus Q_NAME. -/
def c8Expr : List Token := [tkn .STRING "Hello ", tkn .PLUS, tkn .IDENT "Q_NAME"]

-- ---------------- claim theorems ----------------

/-- C1: the claim says a protected region whose body raises its own failure
name restores the snapshot and then runs the recovery body.  The code never
does either: RAISE OMEN only records a flag (execRaiseOmen returns nil, and
nothing ever constructs the omenError that execOmenBlock would catch), so
the body's binding A = 2 survives, the recovery binding R never happens, and
the omen flag is left set.  This evaluates the region at that failing input. -/
theorem c1_omen_raise_no_rollback_no_recovery :
    execOmenBlock 60 { works := [] } c1Toks 0 [("A", "1")] {} =
      (Except.ok 27, [("A", "2"), (omenKey ++ "x", "1")], ({} : Glob)) ∧
    getSigil (execOmenBlock 60 { works := [] } c1Toks 0 [("A", "1")] {}).2.1 "A" = some "2" ∧
    getSigil (execOmenBlock 60 { works := [] } c1Toks 0 [("A", "1")] {}).2.1 "R" = none ∧
    omenPresent (execOmenBlock 60 { works := [] } c1Toks 0 [("A", "1")] {}).2.1 "x" = true :=
  ⟨by decide, by decide, by decide, by decide⟩

/-- C2: reading a restricted name does yield a tainted value, and SAY (and
SEND BACK) redact it, but THUS WE ANSWER renders through evalStringExpr,
which drops the taint bit: the raw secret is printed, returned, and served
as an HTTP response body, never the placeholder. -/
theorem c2_thus_and_response_body_leak_raw_secret :
    (parsePrimary 2 c2Prog [tkn .IDENT "S"] 0 c2Sig {}).1 =
      Except.ok (withTaint (makeText "doom") true, 1) ∧
    (execWork 60 c2Prog c2LeakWork [] {} false).2.2.out = ["doom"] ∧
    (execWork 60 c2Prog c2LeakWork [] {} true).1 = Except.ok "doom" ∧
    (handleWorkRoute 60 c2Prog "GET" "/secret" "LEAK" [] {} c2Req).1.body = "doom\n" ∧
    (execWork 60 c2Prog c2SayWork [] {} false).2.2.out = ["[SIC SAY] [REDACTED]"] ∧
    "doom" ≠ sicRedacted :=
  ⟨by decide, by decide, by decide, by decide, by decide, by decide⟩

/-- C4: the WORK is declared SEALED with a passphrase, the SUMMON supplies
none, yet evalSummonExpr runs the body to completion and returns its answer:
no sealed-access check exists anywhere on the invocation path. -/
theorem c4_sealed_summon_without_passphrase_executes_body :
    findWork c4Prog "VAULT" = some c4Vault ∧
    c4Vault.sealed = true ∧
    c4Vault.sealToken = "vault_key" ∧
    (∀ t ∈ c4Summon, t.type ≠ .SEAL ∧ t.type ≠ .SEALED) ∧
    (evalSummonExpr 40 c4Prog c4Summon 0 [] {}).1 = Except.ok ("TREASURE", 3) :=
  ⟨by decide, by decide, by decide, by decide, by decide⟩

/-- C3: every name the frame recorded as ephemeral is deleted from the
environment by the deferred scrub of execWork, which runs on every exit
path alike (normal fall-through, THUS or SEND BACK return, raised or
structural error): the result table of execWork never contains it. -/
theorem c3_ephemeral_names_absent_after_frame_exit
    (f : Nat) (prog : Program) (w : WorkDecl) (sig : Sig) (g : Glob)
    (capture : Bool) (n : String)
    (h : n ∈ (execWorkCore f prog w sig g capture).2.2.2) :
    getSigil (execWork (f + 1) prog w sig g capture).2.1 n = none := by
  have hw : (execWork (f + 1) prog w sig g capture).2.1 =
      scrubEph (execWorkCore f prog w sig g capture).2.2.2
        (execWorkCore f prog w sig g capture).2.1 := rfl
  rw [hw]
  exact getSigil_scrubEph_of_mem _ _ _ h

/-- C3 witness: the frame binding the ephemeral T records it, and the
environment after the frame exits no longer contains T. -/
theorem c3_ephemeral_names_absent_witness :
    "T" ∈ (execWorkCore 39 { works := [] } c3Work [] {} false).2.2.2 ∧
    getSigil (execWork 40 { works := [] } c3Work [] {} false).2.1 "T" = none :=
  ⟨by decide,
   c3_ephemeral_names_absent_after_frame_exit 39 { works := [] } c3Work [] {} false "T"
     (by decide)⟩

/-- Every CHOIR branch yields a result slot: the fan-out produces exactly
one entry per declared SUMMON whenever the fuel covers the list. -/
theorem runChoirBranches_all_run (prog : Program) (toks : List Token) :
    ∀ (starts : List Nat) (f : Nat) (sig : Sig) (g : Glob), starts.length ≤ f →
      ((runChoirBranches (f + 1) prog toks starts sig g).1).length = starts.length := by
  intro starts
  induction starts with
  | nil => intro f sig g _; rfl
  | cons s rest ih =>
      intro f sig g h
      cases f with
      | zero => simp at h
      | succ f' =>
          have hr : rest.length ≤ f' := by
            simp only [List.length_cons] at h; omega
          simp only [runChoirBranches]
          cases hE : execSummonStmt (f' + 1) prog toks s (cloneSigils sig) g with
          | mk res g1 =>
              cases res with
              | error e => simpa using ih f' sig g1 hr
              | ok u => simpa using ih f' sig g1 hr

/-- C5: a CHOIR block never touches the enclosing environment (every branch
runs on its own copy of the pre-block sigils); all branches run to
completion even when one fails (one result slot per branch, and in the
concrete scenario both A and C fired although B failed); and the surfaced
error is the first failure in declared order (B's). -/
theorem c5_choir_isolated_branches_wait_all_first_error :
    (∀ (f : Nat) (prog : Program) (toks : List Token) (i : Nat) (sig : Sig) (g : Glob),
        (execChoirBlock f prog toks i sig g).2.1 = sig) ∧
    (∀ (prog : Program) (toks : List Token) (starts : List Nat) (f : Nat)
        (sig : Sig) (g : Glob), starts.length ≤ f →
        ((runChoirBranches (f + 1) prog toks starts sig g).1).length = starts.length) ∧
    execChoirBlock 60 progABC choirToks 0 [("k", "v")] {} =
      (Except.error (RErr.fail "SAY: expected COLON after SAY"), [("k", "v")],
       ({ out := ["[SIC SAY] A side effect", "[SIC SAY] C side effect"] } : Glob)) ∧
    firstErr (runChoirBranches 59 progABC choirToks [3, 8, 13] [("k", "v")] {}).1 =
      some (RErr.fail "SAY: expected COLON after SAY") := by
  refine ⟨?_, ?_, by decide, by decide⟩
  · intro f prog toks i sig g
    cases f with
    | zero => rfl
    | succ f =>
        simp only [execChoirBlock]
        repeat' split <;> try rfl
  · intro prog toks starts f sig g h
    exact runChoirBranches_all_run prog toks starts f sig g h

/-- C5 witness: the branch fan-out of the concrete CHOIR produces one
result per branch, discharging the fuel bound. -/
theorem c5_choir_witness :
    ([3, 8, 13] : List Nat).length ≤ 58 ∧
    ((runChoirBranches 59 progABC choirToks [3, 8, 13] [("k", "v")] {}).1).length = 3 :=
  ⟨by decide,
   (c5_choir_isolated_branches_wait_all_first_error).2.1 progABC choirToks [3, 8, 13] 58
     [("k", "v")] {} (by decide)⟩

/-- C6: inside a WEAVE the loop errors the moment the current token starts
anything other than a SUMMON statement (or blank line or ENDWEAVE), and in
the concrete A-B-C scenario the invocations run in source order: A's side
effect happened, B's failure is reported, and C never executed. -/
theorem c6_weave_rejects_non_summon_and_aborts_on_first_failure :
    (∀ (f : Nat) (prog : Program) (toks : List Token) (i : Nat) (sig : Sig)
        (g : Glob) (t : Token),
        toks[i]? = some t →
        (t.type == TokType.NEWLINE) = false →
        (t.type == TokType.ENDWEAVE) = false →
        (t.type == TokType.SUMMON) = false →
        execWeaveLoop (f + 1) prog toks i sig g =
          (Except.error (RErr.fail "WEAVE: unexpected token"), g)) ∧
    execWeaveBlock 60 progABC weaveToks 0 [] {} =
      (Except.error (RErr.fail "SAY: expected COLON after SAY"),
       ({ out := ["[SIC SAY] A side effect"] } : Glob)) := by
  refine ⟨?_, by decide⟩
  intro f prog toks i sig g t h h1 h2 h3
  simp only [execWeaveLoop, h, h1, h2, h3]
  simp

/-- C6 witness: a WEAVE body starting with a LET token is rejected. -/
theorem c6_weave_witness :
    execWeaveLoop 5 { works := [] } [tkn .LET] 0 [] {} =
      (Except.error (RErr.fail "WEAVE: unexpected token"), ({} : Glob)) :=
  (c6_weave_rejects_non_summon_and_aborts_on_first_failure).1 4 { works := [] }
    [tkn .LET] 0 [] {} (tkn .LET) (by decide) (by decide) (by decide) (by decide)

/-- C7: a CHAMBER always hands back the enclosing environment and the
enclosing entanglement ledger unchanged, on every path; and the four
scenarios behave as claimed: an unreleased entangle leaks, entangle plus
release exits cleanly, double entangle and release-without-entangle error,
and an inner re-bind of p never reaches the enclosing environment. -/
theorem c7_chamber_ledger_discipline_and_isolation :
    (∀ (f : Nat) (prog : Program) (toks : List Token) (i : Nat) (sig : Sig) (g : Glob),
        (execChamberBlock f prog toks i sig g).2.1 = sig ∧
        (execChamberBlock f prog toks i sig g).2.2.entangled = g.entangled) ∧
    execChamberBlock 60 { works := [] } chamberLeakToks 0 [("p", "q")]
        { entangled := ["outer"] } =
      (Except.error (RErr.fail "EPHEMERAL: entangle leak in CHAMBER"), [("p", "q")],
       ({ entangled := ["outer"] } : Glob)) ∧
    execChamberBlock 60 { works := [] } chamberCleanToks 0 [("p", "q")]
        { entangled := ["outer"] } =
      (Except.ok 14, [("p", "q")], ({ entangled := ["outer"] } : Glob)) ∧
    execChamberBlock 60 { works := [] } chamberDoubleToks 0 [("p", "q")]
        { entangled := ["outer"] } =
      (Except.error (RErr.fail "ENTANGLE: core x entangled twice in same CHAMBER"),
       [("p", "q")], ({ entangled := ["outer"] } : Glob)) ∧
    execChamberBlock 60 { works := [] } chamberReleaseToks 0 [("p", "q")]
        { entangled := ["outer"] } =
      (Except.error (RErr.fail "RELEASE: core x not entangled in this CHAMBER"),
       [("p", "q")], ({ entangled := ["outer"] } : Glob)) ∧
    execChamberBlock 60 { works := [] } chamberMutToks 0 [("p", "q")]
        { entangled := ["outer"] } =
      (Except.ok 13, [("p", "q")], ({ entangled := ["outer"] } : Glob)) := by
  refine ⟨?_, by decide, by decide, by decide, by decide, by decide⟩
  intro f prog toks i sig g
  cases f with
  | zero => exact ⟨rfl, rfl⟩
  | succ f =>
      simp only [execChamberBlock]
      repeat' split <;> try exact ⟨rfl, rfl⟩

/-- C8 counterexample: the response body is not the bare string Hello Ada —
the handler appends a newline to everything it writes. -/
theorem c8_body_is_not_bare_hello_ada :
    (handleInlineRoute 30 { works := [] } "GET" "/hello" c8Expr [] {} c8Req).1.body
      ≠ "Hello Ada" := by decide

/-- C8 (amended): GET /hello?name=Ada against the inline expression route
injects Q_NAME = Ada (query key uppercased, first value) into the fresh
environment and answers with status 200, the default plain-text content
type, and body Hello Ada followed by the newline the handler appends. -/
theorem c8_route_hello_ada_with_trailing_newline :
    handleInlineRoute 30 { works := [] } "GET" "/hello" c8Expr [] {} c8Req =
      ({ status := 200, contentType := "text/plain; charset=utf-8",
         headerPairs := [], body := "Hello Ada" ++ "\n" }, ({} : Glob)) ∧
    getSigil (injectRequestSigils (cloneVisibleSigils [] []) c8Req) "Q_NAME" =
      some "Ada" :=
  ⟨by decide, by decide⟩

/-- C9: the addition step of parseTerm is numeric exactly when both operands
read as floats, and text concatenation otherwise; stored text 3 added to 4
renders as 7 through the numeric path, while 3 plus a concatenates to 3a. -/
theorem c9_addition_numeric_or_concatenation :
    (∀ (l r : ExprValue) (lf rf : Qv),
        l.asFloat = some lf → r.asFloat = some rf →
        termCombine .PLUS l r = .ok (combineTaint (makeFloat (qAdd lf rf)) l r)) ∧
    (∀ (l r : ExprValue),
        l.asFloat = none ∨ r.asFloat = none →
        termCombine .PLUS l r =
          .ok (combineTaint (makeText (l.toString ++ r.toString)) l r)) ∧
    (evalStringExpr 20 { works := [] } [tkn .IDENT "X", tkn .PLUS, tkn .STRING "4"]
        [("X", "3")] {}).1 = Except.ok "7" ∧
    (evalStringExpr 20 { works := [] } [tkn .IDENT "X", tkn .PLUS, tkn .STRING "a"]
        [("X", "3")] {}).1 = Except.ok "3a" := by
  refine ⟨?_, ?_, by decide, by decide⟩
  · intro l r lf rf h1 h2
    simp [termCombine, h1, h2]
  · intro l r h
    rcases h with h | h
    · simp [termCombine, h]
    · cases hL : l.asFloat with
      | none => simp [termCombine, hL]
      | some lf => simp [termCombine, hL, h]

/-- C9 witness: both concrete addition steps, through the theorem itself. -/
theorem c9_addition_witness :
    (makeText "3").asFloat = some { n := 3, d := 1 } ∧
    (makeText "4").asFloat = some { n := 4, d := 1 } ∧
    (makeText "a").asFloat = none ∧
    termCombine .PLUS (makeText "3") (makeText "4") =
      .ok (combineTaint (makeFloat (qAdd { n := 3, d := 1 } { n := 4, d := 1 }))
            (makeText "3") (makeText "4")) ∧
    termCombine .PLUS (makeText "3") (makeText "a") =
      .ok (combineTaint
            (makeText ((makeText "3").toString ++ (makeText "a").toString))
            (makeText "3") (makeText "a")) :=
  ⟨by decide, by decide, by decide,
   c9_addition_numeric_or_concatenation.1 (makeText "3") (makeText "4")
     { n := 3, d := 1 } { n := 4, d := 1 } (by decide) (by decide),
   c9_addition_numeric_or_concatenation.2.1 (makeText "3") (makeText "a")
     (Or.inr (by decide))⟩

-- helper lemmas for the symbolic LET re-bind proof (C10)

theorem ne_metaKey_append (n : String) : n ≠ sicInvisibleMetaKey ++ n := by
  intro h
  have h2 := congrArg String.length h
  rw [String.length_append] at h2
  have h3 : sicInvisibleMetaKey.length = 22 := by decide
  omega

/-- A plain setSigil of a name leaves its invisibility marker untouched. -/
theorem isInvisible_setSigil_self (sig : Sig) (n v : String) :
    isInvisibleSigil (setSigil sig n v) n = isInvisibleSigil sig n := by
  by_cases hn : n = ""
  · subst hn; simp [isInvisibleSigil]
  · simp only [isInvisibleSigil, hn, if_neg, getSigil_setSigil]
    have hne : ¬ (n = sicInvisibleMetaKey ++ n) := ne_metaKey_append n
    simp [hne]

/-- A string-literal expression evaluates to its text. -/
theorem parseOr_string_lit (f : Nat) (prog : Program) (v : String) (sig : Sig) (g : Glob) :
    parseOr (f + 8) prog [{ type := .STRING, lexeme := v }] 0 sig g
      = (.ok (makeText v, 1), g) := by
  simp [parseOr, parseAnd, parseEquality, parseComparison, parseTerm, parseFactor,
        parseUnary, parsePrimary, parseOrLoop, parseAndLoop, parseEqualityLoop,
        parseComparisonLoop, parseTermLoop, parseFactorLoop, tkn]

theorem evalStringExpr_string_lit (f : Nat) (prog : Program) (v : String)
    (sig : Sig) (g : Glob) :
    evalStringExpr (f + 9) prog [{ type := .STRING, lexeme := v }] sig g = (.ok v, g) := by
  simp [evalStringExpr, takeUntilStops, exprTrimStops, normalizeExprTokens, tkn]
  rw [parseOr_string_lit f prog v sig g]
  simp [ExprValue.toString, makeText]

/-- C10: re-binding a restricted name with a plain LET (no INVISIBLE marker)
keeps the invisibility marking in place while updating the stored value, so
a subsequent expression read of the name still comes back tainted.  The
hypotheses only exclude names the expression grammar could never read back
(the empty name, a dollar-prefixed name, and the glue words BY, FOR,
SECONDS and TIME_NOW). -/
theorem c10_plain_rebind_keeps_restriction
    (f : Nat) (prog : Program) (sig : Sig) (g : Glob) (n v : String)
    (hInv : isInvisibleSigil sig n = true)
    (hNe : n ≠ "")
    (hDollar : sStartsWith n "$" = false)
    (hTm : equalFold n "TIME_NOW" = false)
    (hBy : equalFold n "BY" = false)
    (hFor : equalFold n "FOR" = false)
    (hSec : equalFold n "SECONDS" = false) :
    execLet (f + 10) prog
        [tkn .LET, tkn .SIGIL, tkn .IDENT n, tkn .BE, tkn .STRING v, tkn .DOT]
        0 sig g [] = (.ok 6, setSigil sig n v, g, []) ∧
    isInvisibleSigil (setSigil sig n v) n = true ∧
    getSigil (setSigil sig n v) n = some v ∧
    (parsePrimary (f + 1) prog [tkn .IDENT n] 0 (setSigil sig n v) g).1 =
      .ok (withTaint (coerce v) true, 1) := by
  have hMark : isInvisibleSigil (setSigil sig n v) n = true := by
    rw [isInvisible_setSigil_self]; exact hInv
  have hGet : getSigil (setSigil sig n v) n = some v := by
    rw [getSigil_setSigil]; simp
  refine ⟨?_, hMark, hGet, ?_⟩
  · simp [execLet, parseSigilTarget, tkn, hNe, hDollar, advanceUntil, stmtStops,
          slice, skipDot, evalStringExpr_string_lit f prog v sig g]
  · simp [parsePrimary, tkn, hTm, hBy, hFor, hSec, hGet, hMark]

/-- C10 witness environment: X bound and marked invisible. -/
def c10Sig : Sig := [("X", "old"), (sicInvisibleMetaKey ++ "X", "1")]

/-- C10 witness: the restricted X is re-bound by a plain LET and stays
restricted, and the re-read is tainted. -/
theorem c10_plain_rebind_witness :
    isInvisibleSigil c10Sig "X" = true ∧
    (execLet 10 { works := [] }
        [tkn .LET, tkn .SIGIL, tkn .IDENT "X", tkn .BE, tkn .STRING "new", tkn .DOT]
        0 c10Sig {} [] = (.ok 6, setSigil c10Sig "X" "new", {}, []) ∧
     isInvisibleSigil (setSigil c10Sig "X" "new") "X" = true ∧
     getSigil (setSigil c10Sig "X" "new") "X" = some "new" ∧
     (parsePrimary 1 { works := [] } [tkn .IDENT "X"] 0 (setSigil c10Sig "X" "new") {}).1 =
       .ok (withTaint (coerce "new") true, 1)) :=
  ⟨by decide,
   c10_plain_rebind_keeps_restriction 0 { works := [] } c10Sig {} "X" "new"
     (by decide) (by decide) (by decide) (by decide) (by decide) (by decide) (by decide)⟩

end SIC
